import Mathlib

/-! AndroidExternalTextureGL: lifecycle, paint protocol and transform correction.

A shallow embedding of `shell/platform/android/android_external_texture_gl.cc`.

The adapter object becomes a record of its member fields; every member function becomes a
function from the record to an `Outcome`: the ordered list of externally visible events the
call performed (bridge calls, GL calls, canvas operations, assignments to `state_`, resets of
the smart pointers) together with the record afterwards, or `none` when the call ended in
`FML_CHECK` / `FML_LOG(FATAL)`, which terminate the process. The destructor leaves no record,
only its events.

Values that collaborators hand back during a call (the texture name written by
`glGenTextures`, the optional handle of `TextureGLES::GetGLHandle`, the matrix written by
`SurfaceTextureGetTransformMatrix`) are inputs of the call, gathered in `World`.

`SkScalar` arithmetic is taken over exact rationals.
-/

namespace flutter

/-- The enum `AttachmentState` of the header. -/
inductive AttachmentState
  | kUninitialized
  | kAttached
  | kDetached
  deriving DecidableEq, Repr

/-- Modelled from the spec: `SkMatrix` (Skia, not part of the sources here), "a 3×3
affine/projective matrix", with exact rational entries, row-major. -/
structure SkMatrix where
  m00 : ℚ
  m01 : ℚ
  m02 : ℚ
  m10 : ℚ
  m11 : ℚ
  m12 : ℚ
  m20 : ℚ
  m21 : ℚ
  m22 : ℚ
  deriving DecidableEq

namespace SkMatrix

/-- The identity matrix `SkMatrix::I()`. -/
def I : SkMatrix := ⟨1, 0, 0, 0, 1, 0, 0, 0, 1⟩

/-- The test `SkMatrix::isIdentity()`. -/
def isIdentity (m : SkMatrix) : Bool := decide (m = I)

/-- Matrix product (`SkMatrix::Concat(a, b)`), rows of `a` against columns of `b`. -/
def concat (a b : SkMatrix) : SkMatrix :=
  ⟨a.m00 * b.m00 + a.m01 * b.m10 + a.m02 * b.m20,
   a.m00 * b.m01 + a.m01 * b.m11 + a.m02 * b.m21,
   a.m00 * b.m02 + a.m01 * b.m12 + a.m02 * b.m22,
   a.m10 * b.m00 + a.m11 * b.m10 + a.m12 * b.m20,
   a.m10 * b.m01 + a.m11 * b.m11 + a.m12 * b.m21,
   a.m10 * b.m02 + a.m11 * b.m12 + a.m12 * b.m22,
   a.m20 * b.m00 + a.m21 * b.m10 + a.m22 * b.m20,
   a.m20 * b.m01 + a.m21 * b.m11 + a.m22 * b.m21,
   a.m20 * b.m02 + a.m21 * b.m12 + a.m22 * b.m22⟩

/-- The determinant. -/
def det (m : SkMatrix) : ℚ :=
  m.m00 * (m.m11 * m.m22 - m.m12 * m.m21)
    - m.m01 * (m.m10 * m.m22 - m.m12 * m.m20)
    + m.m02 * (m.m10 * m.m21 - m.m11 * m.m20)

/-- Modelled from the spec: `SkMatrix::invert(SkMatrix*)` (Skia, not part of the sources
here). "Failure to invert (singular matrix)" is the `false` return, here `none`; otherwise the
inverse is written to the out-parameter, here `some`: the adjugate divided by the
determinant. -/
def invert (m : SkMatrix) : Option SkMatrix :=
  if m.det = 0 then none
  else
    some
      ⟨(m.m11 * m.m22 - m.m12 * m.m21) / m.det,
       (m.m02 * m.m21 - m.m01 * m.m22) / m.det,
       (m.m01 * m.m12 - m.m02 * m.m11) / m.det,
       (m.m12 * m.m20 - m.m10 * m.m22) / m.det,
       (m.m00 * m.m22 - m.m02 * m.m20) / m.det,
       (m.m02 * m.m10 - m.m00 * m.m12) / m.det,
       (m.m10 * m.m21 - m.m11 * m.m20) / m.det,
       (m.m01 * m.m20 - m.m00 * m.m21) / m.det,
       (m.m00 * m.m11 - m.m01 * m.m10) / m.det⟩

end SkMatrix

/-- The rectangle `SkRect`, by its four edges. -/
structure SkRect where
  fLeft : ℚ
  fTop : ℚ
  fRight : ℚ
  fBottom : ℚ
  deriving DecidableEq

namespace SkRect

/-- The accessor `SkRect::x()`. -/
def x (r : SkRect) : ℚ := r.fLeft

/-- The accessor `SkRect::y()`. -/
def y (r : SkRect) : ℚ := r.fTop

/-- The accessor `SkRect::width()`. -/
def width (r : SkRect) : ℚ := r.fRight - r.fLeft

/-- The accessor `SkRect::height()`. -/
def height (r : SkRect) : ℚ := r.fBottom - r.fTop

/-- The factory `SkRect::MakeWH(w, h)`. -/
def MakeWH (w h : ℚ) : SkRect := ⟨0, 0, w, h⟩

end SkRect

/-- The implicit conversion of a scalar to `int` at the call `Inititialize(bounds.width(),
bounds.height())`: truncation toward zero. -/
def scalarToInt (q : ℚ) : Int := Int.tdiv q.num q.den

/-- The conversion `static_cast<jint>(texture_id)` of a 32-bit unsigned texture name to a
32-bit signed integer. -/
def static_cast_jint (texture_id : Nat) : Int :=
  if texture_id % 2 ^ 32 < 2 ^ 31 then (texture_id % 2 ^ 32 : Nat)
  else ((texture_id % 2 ^ 32 : Nat) : Int) - 2 ^ 32

/-- The enum `DlImageSampling`. -/
inductive DlImageSampling
  | kNearestNeighbor
  | kLinear
  | kMipmapLinear
  | kCubic
  deriving DecidableEq, Repr

/-- The enum `DlTileMode`. -/
inductive DlTileMode
  | kClamp
  | kRepeat
  | kMirror
  | kDecal
  deriving DecidableEq, Repr

/-- The object `impeller::TextureGLES` made in `Inititialize`: the size of its descriptor and
what its `GetGLHandle()` answers. -/
structure TextureGLES where
  width : Int
  height : Int
  handle : Option Nat
  deriving DecidableEq

/-- The image behind `external_image_`, by the way `Update` built it. -/
inductive DlImage
  /-- The result of `impeller::DlImageImpeller::Make(texture_gles_)`. -/
  | impeller (texture : TextureGLES)
  /-- The result of `DlImage::Make(SkImages::BorrowTextureFrom(context.gr_context,
  backendTexture, ...))` with `backendTexture` a 1×1, unmipmapped texture of target
  `GL_TEXTURE_EXTERNAL_OES`, name `texture_name` and format `GL_RGBA8_OES`. -/
  | borrowed (gr_context : Nat) (texture_name : Nat)
  deriving DecidableEq

/-- The colour source `DlImageColorSource(image, horizontal, vertical, sampling, matrix)`. -/
structure DlImageColorSource where
  image : DlImage
  horizontal_tile_mode : DlTileMode
  vertical_tile_mode : DlTileMode
  sampling : DlImageSampling
  matrix : SkMatrix
  deriving DecidableEq

/-- The paint `DlPaint`: its colour source, and `attributes` standing for all its other
settings, which this code copies but never reads. -/
structure DlPaint where
  attributes : Nat
  color_source : Option DlImageColorSource
  deriving DecidableEq

namespace DlPaint

/-- The default-constructed `DlPaint`. -/
def default : DlPaint := ⟨0, none⟩

/-- The setter `DlPaint::setColorSource`. -/
def setColorSource (p : DlPaint) (source : DlImageColorSource) : DlPaint :=
  { p with color_source := some source }

end DlPaint

/-- The parts of `PaintContext` this code reads: `gr_context` and the optional `paint`.
The canvas is the receiver of the canvas events of the trace. -/
structure PaintContext where
  gr_context : Nat
  paint : Option DlPaint
  deriving DecidableEq

/-- What a call does to its collaborators and to the members whose ordering matters, in
program order. -/
inductive Event
  /-- The bridge call `jni_facade_->SurfaceTextureAttachToGLContext(surface_texture_, textureName)`. -/
  | SurfaceTextureAttachToGLContext (textureName : Int)
  /-- The bridge call `jni_facade_->SurfaceTextureDetachFromGLContext(surface_texture_)`. -/
  | SurfaceTextureDetachFromGLContext
  /-- The bridge call `jni_facade_->SurfaceTextureUpdateTexImage(surface_texture_)`. -/
  | SurfaceTextureUpdateTexImage
  /-- The bridge call `jni_facade_->SurfaceTextureGetTransformMatrix(surface_texture_, transform_)`. -/
  | SurfaceTextureGetTransformMatrix
  /-- The call `glGenTextures(1, &texture_name_)`, with the name it wrote. -/
  | glGenTextures (texture_name : Nat)
  /-- The call `glDeleteTextures(1, &texture_name_)`. -/
  | glDeleteTextures (texture_name : Nat)
  /-- The assignment `texture_gles_ = std::make_shared<impeller::TextureGLES>(...)`; `previous`
  says whether it overwrote (and so released) a texture. -/
  | texture_gles_make (width height : Int) (previous : Bool)
  /-- The call `texture_gles_->GetGLHandle()`. -/
  | GetGLHandle
  /-- The statement `external_image_.reset()`, or the destruction of the member. -/
  | external_image_reset
  /-- The statement `texture_gles_.reset()`, or the destruction of the member. -/
  | texture_gles_reset
  /-- An assignment `state_ = s`. -/
  | state_assign (s : AttachmentState)
  /-- The save done by `DlAutoCanvasRestore autoRestore(context.canvas, true)`. -/
  | Save
  /-- The call `context.canvas->Translate(tx, ty)`. -/
  | Translate (tx ty : ℚ)
  /-- The call `context.canvas->Scale(sx, sy)`. -/
  | Scale (sx sy : ℚ)
  /-- The call `context.canvas->DrawRect(rect, paint)`. -/
  | DrawRect (rect : SkRect) (paint : DlPaint)
  /-- The call `context.canvas->DrawImage(image, {px, py}, sampling, paint)`. -/
  | DrawImage (image : DlImage) (px py : ℚ) (sampling : DlImageSampling) (paint : Option DlPaint)
  /-- The restore done when `autoRestore` leaves scope. -/
  | Restore
  deriving DecidableEq

namespace Event

/-- Calls on the surface-texture bridge (`jni_facade_`). -/
def isBridge : Event → Bool
  | SurfaceTextureAttachToGLContext _ => true
  | SurfaceTextureDetachFromGLContext => true
  | SurfaceTextureUpdateTexImage => true
  | SurfaceTextureGetTransformMatrix => true
  | _ => false

/-- Calls on `context.canvas`. -/
def isCanvas : Event → Bool
  | Save => true
  | Translate _ _ => true
  | Scale _ _ => true
  | DrawRect _ _ => true
  | DrawImage _ _ _ _ _ => true
  | Restore => true
  | _ => false

/-- The two drawing calls on `context.canvas`. -/
def isDraw : Event → Bool
  | DrawRect _ _ => true
  | DrawImage _ _ _ _ _ => true
  | _ => false

/-- The bridge call made by `Attach`. -/
def isAttach : Event → Bool
  | SurfaceTextureAttachToGLContext _ => true
  | _ => false

/-- The bridge call made by `Detach`. -/
def isDetach : Event → Bool
  | SurfaceTextureDetachFromGLContext => true
  | _ => false

/-- The bridge call that opens `Update`: one per call of `Update`. -/
def isUpdate : Event → Bool
  | SurfaceTextureUpdateTexImage => true
  | _ => false

/-- Events that give up the GPU texture: `glDeleteTextures`, `texture_gles_.reset()`, and an
assignment to `texture_gles_` that overwrites a texture. -/
def isRelease : Event → Bool
  | glDeleteTextures _ => true
  | texture_gles_reset => true
  | texture_gles_make _ _ previous => previous
  | _ => false

/-- The statement that clears the cached image. -/
def isImageReset : Event → Bool
  | external_image_reset => true
  | _ => false

end Event

/-- The member fields of `AndroidExternalTextureGL`. `impeller_context_` records whether the
pointer is non-null. `id`, `jni_facade_` and `surface_texture_` never change and are the
fixed receivers of the bridge events. -/
structure AndroidExternalTextureGL where
  impeller_context_ : Bool
  state_ : AttachmentState
  new_frame_ready_ : Bool
  transform_ : SkMatrix
  external_image_ : Option DlImage
  texture_gles_ : Option TextureGLES
  texture_name_ : Nat
  deriving DecidableEq

/-- What the collaborators answer during one call. -/
structure World where
  /-- The name `glGenTextures(1, &texture_name_)` writes. -/
  glGenTextures : Nat
  /-- The answer of `texture_gles_->GetGLHandle()`. -/
  GetGLHandle : Option Nat
  /-- The matrix `SurfaceTextureGetTransformMatrix` writes into `transform_`. -/
  SurfaceTextureGetTransformMatrix : SkMatrix
  deriving DecidableEq

/-- The events of a call in program order and the object afterwards; `value = none` when the
call ended in `FML_CHECK` or `FML_LOG(FATAL)`. -/
structure Outcome where
  trace : List Event
  value : Option AndroidExternalTextureGL
  deriving DecidableEq

namespace Outcome

/-- Nothing further happens. -/
def ok (a : AndroidExternalTextureGL) : Outcome := ⟨[], some a⟩

/-- The events `es` happen and the object becomes `a`. -/
def emit (es : List Event) (a : AndroidExternalTextureGL) : Outcome := ⟨es, some a⟩

/-- Modelled from the spec: the process is killed, as by `FML_LOG(FATAL)` (`fml/logging.h`,
not part of the sources here), "a fatal, unrecoverable condition". -/
def fatal : Outcome := ⟨[], none⟩

/-- Sequencing: `f` runs on the object `o` left, unless `o` was fatal. -/
def andThen (o : Outcome) (f : AndroidExternalTextureGL → Outcome) : Outcome :=
  match o.value with
  | none => ⟨o.trace, none⟩
  | some a => ⟨o.trace ++ (f a).trace, (f a).value⟩

end Outcome

/-- Modelled from the spec: the macro `FML_CHECK(condition)` (`fml/logging.h`, not part of the
sources here); a failed check is "fatal", "reported by terminating the process". -/
def FML_CHECK (condition : Bool) (a : AndroidExternalTextureGL) : Outcome :=
  if condition then Outcome.ok a else Outcome.fatal

namespace AndroidExternalTextureGL

/-- The constructor: `transform_(SkMatrix::I())` and the default member initialisers. -/
def construct (impeller_context : Bool) : AndroidExternalTextureGL :=
  { impeller_context_ := impeller_context
    state_ := .kUninitialized
    new_frame_ready_ := false
    transform_ := SkMatrix.I
    external_image_ := none
    texture_gles_ := none
    texture_name_ := 0 }

/-- The member function `OnGrContextCreated`. -/
def OnGrContextCreated (a : AndroidExternalTextureGL) : Outcome :=
  (Outcome.emit [.state_assign .kUninitialized] { a with state_ := .kUninitialized }).andThen
    fun a =>
  (Outcome.emit [.external_image_reset] { a with external_image_ := none }).andThen fun a =>
  Outcome.emit [.texture_gles_reset] { a with texture_gles_ := none }

/-- The member function `Attach`. -/
def Attach (textureName : Int) (a : AndroidExternalTextureGL) : Outcome :=
  Outcome.emit [.SurfaceTextureAttachToGLContext textureName] a

/-- The member function `Detach`. -/
def Detach (a : AndroidExternalTextureGL) : Outcome :=
  Outcome.emit [.SurfaceTextureDetachFromGLContext] a

/-- The member function `OnGrContextDestroyed`. -/
def OnGrContextDestroyed (a : AndroidExternalTextureGL) : Outcome :=
  (Outcome.emit [.external_image_reset] { a with external_image_ := none }).andThen fun a =>
  (Outcome.emit [.texture_gles_reset] { a with texture_gles_ := none }).andThen fun a =>
  (if a.impeller_context_ = false then
      if a.state_ = .kAttached then
        (Detach a).andThen fun a => Outcome.emit [.glDeleteTextures a.texture_name_] a
      else Outcome.ok a
    else Outcome.ok a).andThen fun a =>
  Outcome.emit [.state_assign .kDetached] { a with state_ := .kDetached }

/-- The member function `MarkNewFrameAvailable`. -/
def MarkNewFrameAvailable (a : AndroidExternalTextureGL) : Outcome :=
  Outcome.ok { a with new_frame_ready_ := true }

/-- The member function `OnTextureUnregistered`, whose body is empty. -/
def OnTextureUnregistered (a : AndroidExternalTextureGL) : Outcome :=
  Outcome.ok a

/-- The destructor `~AndroidExternalTextureGL`. Its body only logs under the device-texture
strategy and calls `glDeleteTextures` for an attached adapter of the raw-handle strategy; then
the members are destroyed in reverse order of declaration, `texture_gles_` before
`external_image_`, which releases the two pointers as their `reset()` does. The object is
gone afterwards, so the events are all that is left. -/
def Destructor (a : AndroidExternalTextureGL) : List Event :=
  (if a.impeller_context_ = true then []
    else if a.state_ = .kAttached then [.glDeleteTextures a.texture_name_]
    else []) ++
  [.texture_gles_reset, .external_image_reset]

/-- The member function `UpdateTransform`: the bridge writes the producer matrix into
`transform_`, which is then replaced by its inverse; a failed inversion is
`FML_LOG(FATAL)`. -/
def UpdateTransform (w : World) (a : AndroidExternalTextureGL) : Outcome :=
  (Outcome.emit [.SurfaceTextureGetTransformMatrix]
      { a with transform_ := w.SurfaceTextureGetTransformMatrix }).andThen fun a =>
  match a.transform_.invert with
  | none => Outcome.fatal
  | some inverted => Outcome.ok { a with transform_ := inverted }

/-- The member function `Inititialize`. -/
def Inititialize (w : World) (width height : Int) (a : AndroidExternalTextureGL) : Outcome :=
  (if a.impeller_context_ = false then
      (Outcome.emit [.glGenTextures (w.glGenTextures % 2 ^ 32)]
          { a with texture_name_ := w.glGenTextures % 2 ^ 32 }).andThen fun a =>
      Attach (static_cast_jint a.texture_name_) a
    else
      (FML_CHECK a.impeller_context_ a).andThen fun a =>
      (Outcome.emit [.texture_gles_make width height a.texture_gles_.isSome]
          { a with texture_gles_ := some ⟨width, height, w.GetGLHandle⟩ }).andThen fun a =>
      (Outcome.emit [.GetGLHandle] a).andThen fun a =>
      (FML_CHECK w.GetGLHandle.isSome a).andThen fun a =>
      match w.GetGLHandle with
      | some texture_id => Attach (static_cast_jint texture_id) a
      | none => Attach (static_cast_jint 0) a).andThen fun a =>
  Outcome.emit [.state_assign .kAttached] { a with state_ := .kAttached }

/-- The member function `Update`. -/
def Update (w : World) (context : PaintContext) (a : AndroidExternalTextureGL) : Outcome :=
  (Outcome.emit [.SurfaceTextureUpdateTexImage] a).andThen fun a =>
  (UpdateTransform w a).andThen fun a =>
  match a.texture_gles_ with
  | some texture => Outcome.ok { a with external_image_ := some (.impeller texture) }
  | none =>
    Outcome.ok
      { a with external_image_ := some (.borrowed context.gr_context a.texture_name_) }

/-- Lines 83-89 of `Paint`: `needs_update` and, when it holds, `Update` followed by
`new_frame_ready_ = false`. -/
def PaintUpdateStep (w : World) (context : PaintContext) (freeze : Bool)
    (a : AndroidExternalTextureGL) : Outcome :=
  if (!freeze && a.new_frame_ready_) || a.external_image_.isNone then
    (Update w context a).andThen fun a => Outcome.ok { a with new_frame_ready_ := false }
  else Outcome.ok a

/-- Lines 96-119 of `Paint`: when `external_image_` is set, the canvas is saved, moved to the
bottom of `bounds` and flipped, the image is drawn through a colour source (`transform_` not
the identity) or directly, and the canvas is restored. -/
def PaintDrawStep (context : PaintContext) (bounds : SkRect) (sampling : DlImageSampling)
    (a : AndroidExternalTextureGL) : Outcome :=
  match a.external_image_ with
  | some image =>
    Outcome.emit
      ([.Save,
        .Translate bounds.x (bounds.y + bounds.height),
        .Scale bounds.width (-bounds.height)]
        ++ (if a.transform_.isIdentity = false then
              [.DrawRect (SkRect.MakeWH 1 1)
                ((match context.paint with
                  | some p => p
                  | none => DlPaint.default).setColorSource
                  ⟨image, .kRepeat, .kRepeat, sampling, a.transform_⟩)]
            else [.DrawImage image 0 0 sampling context.paint])
        ++ [.Restore]) a
  | none => Outcome.ok a

/-- Lines 83-119 of `Paint`, what it does once the adapter is attached: the update step
followed by the drawing step. -/
def PaintAttached (w : World) (context : PaintContext) (bounds : SkRect) (freeze : Bool)
    (sampling : DlImageSampling) (a : AndroidExternalTextureGL) : Outcome :=
  (PaintUpdateStep w context freeze a).andThen fun a => PaintDrawStep context bounds sampling a

/-- The member function `Paint`. The two diagnostic statements between the update and the
drawing (`FML_LOG(ERROR)` and `transform_.dump()`) only write to the log. -/
def Paint (w : World) (context : PaintContext) (bounds : SkRect) (freeze : Bool)
    (sampling : DlImageSampling) (a : AndroidExternalTextureGL) : Outcome :=
  if a.state_ = .kDetached then Outcome.ok a
  else
    (if a.state_ = .kUninitialized then
        (Inititialize w (scalarToInt bounds.width) (scalarToInt bounds.height) a).andThen
          fun a => FML_CHECK (decide (a.state_ = .kAttached)) a
      else Outcome.ok a).andThen fun a =>
    PaintAttached w context bounds freeze sampling a

end AndroidExternalTextureGL

/-- The calls the owner of the texture can make, with their arguments and, for `Paint`, what
the collaborators answer during the call. -/
inductive Call
  | Paint (w : World) (context : PaintContext) (bounds : SkRect) (freeze : Bool)
      (sampling : DlImageSampling)
  | MarkNewFrameAvailable
  | OnGrContextCreated
  | OnGrContextDestroyed
  | OnTextureUnregistered
  deriving DecidableEq

/-- One call on the object. -/
def Call.run : Call → AndroidExternalTextureGL → Outcome
  | .Paint w context bounds freeze sampling, a =>
    AndroidExternalTextureGL.Paint w context bounds freeze sampling a
  | .MarkNewFrameAvailable, a => AndroidExternalTextureGL.MarkNewFrameAvailable a
  | .OnGrContextCreated, a => AndroidExternalTextureGL.OnGrContextCreated a
  | .OnGrContextDestroyed, a => AndroidExternalTextureGL.OnGrContextDestroyed a
  | .OnTextureUnregistered, a => AndroidExternalTextureGL.OnTextureUnregistered a

/-- A sequence of calls, one after the other; `none` when one of them was fatal. -/
def runCalls : List Call → AndroidExternalTextureGL → Option AndroidExternalTextureGL
  | [], a => some a
  | c :: cs, a =>
    match (c.run a).value with
    | none => none
    | some a1 => runCalls cs a1

/-! ## Matrix algebra behind `SkMatrix.invert` -/

namespace SkMatrix

theorem det_concat (a b : SkMatrix) : (a.concat b).det = a.det * b.det := by
  simp only [concat, det]; ring

theorem det_I : I.det = 1 := by
  simp [I, det]

theorem concat_assoc (a b c : SkMatrix) : (a.concat b).concat c = a.concat (b.concat c) := by
  simp only [concat, SkMatrix.mk.injEq]
  refine ⟨?_, ?_, ?_, ?_, ?_, ?_, ?_, ?_, ?_⟩ <;> ring

theorem concat_I (a : SkMatrix) : a.concat I = a := by
  cases a; simp [concat, I]

theorem I_concat (a : SkMatrix) : I.concat a = a := by
  cases a; simp [concat, I]

/-- A matrix of non-zero determinant is inverted, and the result is a two-sided inverse. -/
theorem invert_of_det_ne_zero (m : SkMatrix) (h : m.det ≠ 0) :
    ∃ n, m.invert = some n ∧ n.concat m = I ∧ m.concat n = I := by
  refine ⟨_, if_neg h, ?_, ?_⟩
  · simp only [concat, I, SkMatrix.mk.injEq]
    refine ⟨?_, ?_, ?_, ?_, ?_, ?_, ?_, ?_, ?_⟩ <;> field_simp <;> (try simp only [det]) <;> ring
  · simp only [concat, I, SkMatrix.mk.injEq]
    refine ⟨?_, ?_, ?_, ?_, ?_, ?_, ?_, ?_, ?_⟩ <;> field_simp <;> (try simp only [det]) <;> ring

theorem det_ne_zero_of_concat (m n : SkMatrix) (h : m.concat n = I) : m.det ≠ 0 := by
  intro h0
  have hd := det_concat m n
  rw [h, det_I, h0] at hd
  simp at hd

/-- Whatever right inverse a matrix has is the matrix `invert` produces. -/
theorem invert_eq_of_inverse (m n : SkMatrix) (h1 : m.concat n = I) : m.invert = some n := by
  obtain ⟨x, hx, hxm, -⟩ := invert_of_det_ne_zero m (det_ne_zero_of_concat m n h1)
  rw [hx]
  have hxn : x = n := by
    calc x = x.concat I := (concat_I x).symm
      _ = x.concat (m.concat n) := by rw [h1]
      _ = (x.concat m).concat n := (concat_assoc x m n).symm
      _ = n := by rw [hxm, I_concat]
  rw [hxn]

theorem invert_eq_none_iff (m : SkMatrix) : m.invert = none ↔ m.det = 0 := by
  unfold invert
  split <;> simp [*]

theorem invert_I : I.invert = some I :=
  invert_eq_of_inverse I I (concat_I I)

/-- The inverse is the identity exactly when the matrix is. -/
theorem invert_eq_I_iff (m n : SkMatrix) (h : m.invert = some n) : n = I ↔ m = I := by
  constructor
  · intro hn
    subst hn
    have hd : m.det ≠ 0 := fun h0 => by simp [(invert_eq_none_iff m).2 h0] at h
    obtain ⟨x, hx, hxm, -⟩ := invert_of_det_ne_zero m hd
    rw [hx] at h
    cases h
    simpa [I_concat] using hxm
  · intro hm
    subst hm
    rw [invert_I] at h
    cases h
    rfl

end SkMatrix

open AndroidExternalTextureGL

/-! ## Stepping through the member functions -/

/-- What `UpdateTransform` does when the producer matrix is inverted to `n`. -/
theorem UpdateTransform_of_invert (w : World) (a : AndroidExternalTextureGL) (n : SkMatrix)
    (h : w.SurfaceTextureGetTransformMatrix.invert = some n) :
    UpdateTransform w a = ⟨[.SurfaceTextureGetTransformMatrix], some { a with transform_ := n }⟩ := by
  simp [UpdateTransform, Outcome.andThen, Outcome.emit, Outcome.ok, h]

/-- What `UpdateTransform` does when the producer matrix is not inverted. -/
theorem UpdateTransform_of_invert_none (w : World) (a : AndroidExternalTextureGL)
    (h : w.SurfaceTextureGetTransformMatrix.invert = none) :
    UpdateTransform w a = ⟨[.SurfaceTextureGetTransformMatrix], none⟩ := by
  simp [UpdateTransform, Outcome.andThen, Outcome.emit, Outcome.fatal, h]

/-- What `Update` does when the producer matrix is inverted to `n`. -/
theorem Update_of_invert (w : World) (context : PaintContext) (a : AndroidExternalTextureGL)
    (n : SkMatrix) (h : w.SurfaceTextureGetTransformMatrix.invert = some n) :
    Update w context a =
      ⟨[.SurfaceTextureUpdateTexImage, .SurfaceTextureGetTransformMatrix],
        some { a with
          transform_ := n
          external_image_ :=
            some (match a.texture_gles_ with
              | some texture => .impeller texture
              | none => .borrowed context.gr_context a.texture_name_) }⟩ := by
  simp only [Update, UpdateTransform_of_invert w _ n h, Outcome.andThen, Outcome.emit]
  cases a.texture_gles_ <;> simp [Outcome.ok]

/-- What `Update` does when the producer matrix is not inverted. -/
theorem Update_of_invert_none (w : World) (context : PaintContext) (a : AndroidExternalTextureGL)
    (h : w.SurfaceTextureGetTransformMatrix.invert = none) :
    Update w context a =
      ⟨[.SurfaceTextureUpdateTexImage, .SurfaceTextureGetTransformMatrix], none⟩ := by
  simp [Update, UpdateTransform_of_invert_none w _ h, Outcome.andThen, Outcome.emit]

/-- The early return of `Paint` on a detached adapter. -/
theorem Paint_of_detached (w : World) (context : PaintContext) (bounds : SkRect)
    (freeze : Bool) (sampling : DlImageSampling) (a : AndroidExternalTextureGL)
    (h : a.state_ = .kDetached) :
    Paint w context bounds freeze sampling a = ⟨[], some a⟩ := by
  simp [Paint, h, Outcome.ok]

/-! ## The claims -/

/-- C4: on an adapter whose `state_` is `kDetached`, `Paint` does nothing, whatever its
arguments: its trace is empty (no canvas operation, no bridge call, no GL call) and the
adapter it leaves is the adapter it found, field for field. -/
theorem Paint_detached_is_noop (w : World) (context : PaintContext) (bounds : SkRect)
    (freeze : Bool) (sampling : DlImageSampling) (a : AndroidExternalTextureGL)
    (h : a.state_ = .kDetached) :
    (Paint w context bounds freeze sampling a).trace = [] ∧
      (Paint w context bounds freeze sampling a).value = some a := by
  rw [Paint_of_detached w context bounds freeze sampling a h]
  exact ⟨rfl, rfl⟩

/-- Witness for C4: a detached adapter that still holds an image, a texture and a pending
frame. -/
theorem Paint_detached_is_noop_witness :
    (Paint ⟨7, some 9, SkMatrix.I⟩ ⟨1, none⟩ ⟨0, 0, 4, 3⟩ false .kLinear
        ⟨false, .kDetached, true, SkMatrix.I, some (.borrowed 1 7), none, 7⟩).trace = [] ∧
      (Paint ⟨7, some 9, SkMatrix.I⟩ ⟨1, none⟩ ⟨0, 0, 4, 3⟩ false .kLinear
        ⟨false, .kDetached, true, SkMatrix.I, some (.borrowed 1 7), none, 7⟩).value =
        some ⟨false, .kDetached, true, SkMatrix.I, some (.borrowed 1 7), none, 7⟩ :=
  Paint_detached_is_noop _ _ _ _ _ _ rfl

/-- C3, as stated, fails: a constructed adapter is `kDetached` after `OnGrContextDestroyed`,
and a following `OnGrContextCreated` moves it to `kUninitialized`. -/
theorem detached_left_by_OnGrContextCreated :
    (runCalls [.OnGrContextDestroyed] (construct false)).map (fun a => a.state_)
        = some .kDetached ∧
      (runCalls [.OnGrContextDestroyed, .OnGrContextCreated] (construct false)).map
        (fun a => a.state_) = some .kUninitialized := by
  decide

/-- C3, amended: from `kDetached`, every sequence of `Paint`, `MarkNewFrameAvailable`,
`OnGrContextDestroyed` and `OnTextureUnregistered` calls runs to its end and leaves the state
`kDetached`; `OnGrContextCreated` is the one call that leaves `kDetached`, for
`kUninitialized`. -/
theorem detached_kept_unless_OnGrContextCreated (a : AndroidExternalTextureGL)
    (h : a.state_ = .kDetached) :
    (∀ calls : List Call, Call.OnGrContextCreated ∉ calls →
        ∃ a1, runCalls calls a = some a1 ∧ a1.state_ = .kDetached) ∧
      ∃ a1, (OnGrContextCreated a).value = some a1 ∧ a1.state_ = .kUninitialized := by
  constructor
  · intro calls
    induction calls generalizing a with
    | nil => intro _; exact ⟨a, rfl, h⟩
    | cons c cs ih =>
      intro hc
      have hc1 : c ≠ Call.OnGrContextCreated := fun e => hc (by simp [e])
      have hcs : Call.OnGrContextCreated ∉ cs := fun e => hc (by simp [e])
      have hstep : ∃ a1, (c.run a).value = some a1 ∧ a1.state_ = .kDetached := by
        cases c with
        | Paint w context bounds freeze sampling =>
          exact ⟨a, by simp [Call.run, Paint_of_detached w context bounds freeze sampling a h], h⟩
        | MarkNewFrameAvailable =>
          exact ⟨_, rfl, h⟩
        | OnGrContextCreated => exact absurd rfl hc1
        | OnGrContextDestroyed =>
          simp [Call.run, OnGrContextDestroyed, Outcome.andThen, Outcome.emit, Outcome.ok, h]
        | OnTextureUnregistered =>
          exact ⟨a, rfl, h⟩
      obtain ⟨a1, h1, hs1⟩ := hstep
      obtain ⟨a2, h2, hs2⟩ := ih a1 hs1 hcs
      exact ⟨a2, by simp [runCalls, h1, h2], hs2⟩
  · simp [OnGrContextCreated, Outcome.andThen, Outcome.emit]

/-- Witness for C3, amended: the adapter left by `OnGrContextDestroyed`. -/
theorem detached_kept_unless_OnGrContextCreated_witness :
    (∀ calls : List Call, Call.OnGrContextCreated ∉ calls →
        ∃ a1, runCalls calls { construct true with state_ := .kDetached } = some a1 ∧
          a1.state_ = .kDetached) ∧
      ∃ a1, (OnGrContextCreated { construct true with state_ := .kDetached }).value = some a1 ∧
        a1.state_ = .kUninitialized :=
  detached_kept_unless_OnGrContextCreated _ rfl

/-- C5: when the matrix `m` the bridge hands to `UpdateTransform` is invertible, with inverse
`n`, then `UpdateTransform` and `Update` complete and the `transform_` they leave is `n`; so
`transform_ * m` and `m * transform_` are both the identity. -/
theorem UpdateTransform_stores_inverse (w : World) (context : PaintContext)
    (a : AndroidExternalTextureGL) (n : SkMatrix)
    (h : w.SurfaceTextureGetTransformMatrix.concat n = SkMatrix.I ∧
      n.concat w.SurfaceTextureGetTransformMatrix = SkMatrix.I) :
    (∃ a1, (UpdateTransform w a).value = some a1 ∧ a1.transform_ = n ∧
        a1.transform_.concat w.SurfaceTextureGetTransformMatrix = SkMatrix.I ∧
        w.SurfaceTextureGetTransformMatrix.concat a1.transform_ = SkMatrix.I) ∧
      ∃ a2, (Update w context a).value = some a2 ∧ a2.transform_ = n := by
  have hi := SkMatrix.invert_eq_of_inverse _ n h.1
  rw [UpdateTransform_of_invert w a n hi, Update_of_invert w context a n hi]
  exact ⟨⟨_, rfl, rfl, h.2, h.1⟩, _, rfl, rfl⟩

/-- Witness for C5: the producer halves both axes and shifts by one, the stored transform
doubles them and shifts back. -/
theorem UpdateTransform_stores_inverse_witness :
    (∃ a1, (UpdateTransform ⟨7, none, ⟨1 / 2, 0, 1, 0, 1 / 2, 0, 0, 0, 1⟩⟩
          (construct false)).value = some a1 ∧
        a1.transform_ = ⟨2, 0, -2, 0, 2, 0, 0, 0, 1⟩ ∧
        a1.transform_.concat
          (World.SurfaceTextureGetTransformMatrix ⟨7, none, ⟨1 / 2, 0, 1, 0, 1 / 2, 0, 0, 0, 1⟩⟩)
          = SkMatrix.I ∧
        (World.SurfaceTextureGetTransformMatrix
          ⟨7, none, ⟨1 / 2, 0, 1, 0, 1 / 2, 0, 0, 0, 1⟩⟩).concat a1.transform_ = SkMatrix.I) ∧
      ∃ a2, (Update ⟨7, none, ⟨1 / 2, 0, 1, 0, 1 / 2, 0, 0, 0, 1⟩⟩ ⟨1, none⟩
          (construct false)).value = some a2 ∧
        a2.transform_ = ⟨2, 0, -2, 0, 2, 0, 0, 0, 1⟩ :=
  UpdateTransform_stores_inverse _ _ _ _ (by norm_num [SkMatrix.concat, SkMatrix.I])

/-- C6: when the matrix the bridge hands over has no inverse, `UpdateTransform` ends in
`FML_LOG(FATAL)` after the bridge call, and so does the `Update` around it: neither completes,
so neither leaves a `transform_`, be it the identity or the one stored before. -/
theorem UpdateTransform_singular_is_fatal (w : World) (context : PaintContext)
    (a : AndroidExternalTextureGL)
    (h : ¬ ∃ n : SkMatrix, w.SurfaceTextureGetTransformMatrix.concat n = SkMatrix.I ∧
      n.concat w.SurfaceTextureGetTransformMatrix = SkMatrix.I) :
    UpdateTransform w a = ⟨[.SurfaceTextureGetTransformMatrix], none⟩ ∧
      Update w context a =
        ⟨[.SurfaceTextureUpdateTexImage, .SurfaceTextureGetTransformMatrix], none⟩ := by
  have hi : w.SurfaceTextureGetTransformMatrix.invert = none := by
    rw [SkMatrix.invert_eq_none_iff]
    by_contra hd
    obtain ⟨x, -, hxm, hmx⟩ := SkMatrix.invert_of_det_ne_zero _ hd
    exact h ⟨x, hmx, hxm⟩
  exact ⟨UpdateTransform_of_invert_none w a hi, Update_of_invert_none w context a hi⟩

/-- Witness for C6: a producer matrix whose last row is zero. -/
theorem UpdateTransform_singular_is_fatal_witness :
    UpdateTransform ⟨7, none, ⟨1, 0, 0, 0, 1, 0, 0, 0, 0⟩⟩ (construct false)
        = ⟨[.SurfaceTextureGetTransformMatrix], none⟩ ∧
      Update ⟨7, none, ⟨1, 0, 0, 0, 1, 0, 0, 0, 0⟩⟩ ⟨1, none⟩ (construct false) =
        ⟨[.SurfaceTextureUpdateTexImage, .SurfaceTextureGetTransformMatrix], none⟩ :=
  UpdateTransform_singular_is_fatal _ _ _ (by
    rintro ⟨n, h1, -⟩
    simp [SkMatrix.concat, SkMatrix.I] at h1)

/-- The events of `Inititialize`, raw-handle strategy. -/
theorem Inititialize_raw (w : World) (width height : Int) (a : AndroidExternalTextureGL)
    (h : a.impeller_context_ = false) :
    Inititialize w width height a =
      ⟨[.glGenTextures (w.glGenTextures % 2 ^ 32),
          .SurfaceTextureAttachToGLContext (static_cast_jint (w.glGenTextures % 2 ^ 32)),
          .state_assign .kAttached],
        some { a with texture_name_ := w.glGenTextures % 2 ^ 32, state_ := .kAttached }⟩ := by
  simp [Inititialize, h, Outcome.andThen, Outcome.emit, Attach]

/-- The events of `Inititialize`, device-texture strategy, when the texture has a handle. -/
theorem Inititialize_impeller (w : World) (width height : Int) (a : AndroidExternalTextureGL)
    (texture_id : Nat) (h : a.impeller_context_ = true) (hw : w.GetGLHandle = some texture_id) :
    Inititialize w width height a =
      ⟨[.texture_gles_make width height a.texture_gles_.isSome, .GetGLHandle,
          .SurfaceTextureAttachToGLContext (static_cast_jint texture_id),
          .state_assign .kAttached],
        some { a with
          texture_gles_ := some ⟨width, height, some texture_id⟩, state_ := .kAttached }⟩ := by
  simp [Inititialize, h, hw, Outcome.andThen, Outcome.emit, Outcome.ok, Attach, FML_CHECK]

/-- The events of `Inititialize`, device-texture strategy, when the texture has no handle:
`FML_CHECK(maybe_handle.has_value())` ends the call. -/
theorem Inititialize_impeller_none (w : World) (width height : Int)
    (a : AndroidExternalTextureGL) (h : a.impeller_context_ = true)
    (hw : w.GetGLHandle = none) :
    Inititialize w width height a =
      ⟨[.texture_gles_make width height a.texture_gles_.isSome, .GetGLHandle], none⟩ := by
  simp [Inititialize, h, hw, Outcome.andThen, Outcome.emit, Outcome.ok, Outcome.fatal, FML_CHECK]

/-- The update step makes one bridge `update-tex-image` call when `needs_update` holds and
none otherwise, whether or not the matrix it then reads can be inverted. -/
theorem PaintUpdateStep_updates (w : World) (context : PaintContext) (freeze : Bool)
    (a : AndroidExternalTextureGL) :
    (PaintUpdateStep w context freeze a).trace.countP Event.isUpdate =
      if (!freeze && a.new_frame_ready_) || a.external_image_.isNone then 1 else 0 := by
  unfold PaintUpdateStep
  split
  · cases hi : w.SurfaceTextureGetTransformMatrix.invert with
    | none => simp [Update_of_invert_none w context a hi, Outcome.andThen, Event.isUpdate]
    | some n =>
      simp [Update_of_invert w context a n hi, Outcome.andThen, Outcome.ok, Event.isUpdate]
  · simp [Outcome.ok]

/-- The drawing step makes no bridge call. -/
theorem PaintDrawStep_updates (context : PaintContext) (bounds : SkRect)
    (sampling : DlImageSampling) (a : AndroidExternalTextureGL) :
    (PaintDrawStep context bounds sampling a).trace.countP Event.isUpdate = 0 := by
  unfold PaintDrawStep
  cases a.external_image_ with
  | none => simp [Outcome.ok]
  | some image =>
    by_cases ht : a.transform_.isIdentity = false <;>
      simp [Outcome.emit, ht, Event.isUpdate]

/-- The update step, when it completes, leaves an image, leaves the state and the strategy
alone, and, unless frozen, leaves no frame pending. -/
theorem PaintUpdateStep_value (w : World) (context : PaintContext) (freeze : Bool)
    (a a1 : AndroidExternalTextureGL) (h : (PaintUpdateStep w context freeze a).value = some a1) :
    a1.external_image_.isSome = true ∧ a1.state_ = a.state_ ∧
      (freeze = false → a1.new_frame_ready_ = false) ∧
      a1.impeller_context_ = a.impeller_context_ := by
  unfold PaintUpdateStep at h
  split at h
  · cases hi : w.SurfaceTextureGetTransformMatrix.invert with
    | none => simp [Update_of_invert_none w context a hi, Outcome.andThen] at h
    | some n =>
      simp [Update_of_invert w context a n hi, Outcome.andThen, Outcome.ok] at h
      subst h
      simp
  · rename_i hn
    simp [Outcome.ok] at h
    subst h
    cases hf : freeze <;> cases hi : a.external_image_ <;> simp_all

/-- The events of a sequence are those of its first part followed, unless that part was
fatal, by those of the second. -/
theorem Outcome.andThen_trace (o : Outcome) (f : AndroidExternalTextureGL → Outcome) :
    (o.andThen f).trace =
      o.trace ++ (match o.value with
        | none => []
        | some a => (f a).trace) := by
  unfold Outcome.andThen
  cases o.value <;> simp

/-- On an attached adapter `Paint` is its update step followed by its drawing step. -/
theorem Paint_attached (w : World) (context : PaintContext) (bounds : SkRect) (freeze : Bool)
    (sampling : DlImageSampling) (a : AndroidExternalTextureGL) (h : a.state_ = .kAttached) :
    Paint w context bounds freeze sampling a = PaintAttached w context bounds freeze sampling a := by
  simp [Paint, h, Outcome.andThen, Outcome.ok]

/-- On an uninitialised adapter, raw-handle strategy, `Paint` is `Inititialize` followed by
what it does on the attached adapter. -/
theorem Paint_uninitialized_raw (w : World) (context : PaintContext) (bounds : SkRect)
    (freeze : Bool) (sampling : DlImageSampling) (a : AndroidExternalTextureGL)
    (h : a.state_ = .kUninitialized) (hi : a.impeller_context_ = false) :
    Paint w context bounds freeze sampling a =
      (Outcome.emit
        [.glGenTextures (w.glGenTextures % 2 ^ 32),
          .SurfaceTextureAttachToGLContext (static_cast_jint (w.glGenTextures % 2 ^ 32)),
          .state_assign .kAttached]
        { a with texture_name_ := w.glGenTextures % 2 ^ 32, state_ := .kAttached }).andThen
        (PaintAttached w context bounds freeze sampling) := by
  simp [Paint, PaintAttached, h, Inititialize_raw w _ _ a hi, Outcome.andThen, Outcome.ok,
    Outcome.emit, FML_CHECK]

/-- On an uninitialised adapter, device-texture strategy with a handle, `Paint` is
`Inititialize` followed by what it does on the attached adapter. -/
theorem Paint_uninitialized_impeller (w : World) (context : PaintContext) (bounds : SkRect)
    (freeze : Bool) (sampling : DlImageSampling) (a : AndroidExternalTextureGL)
    (texture_id : Nat)
    (h : a.state_ = .kUninitialized) (hi : a.impeller_context_ = true)
    (hw : w.GetGLHandle = some texture_id) :
    Paint w context bounds freeze sampling a =
      (Outcome.emit
        [.texture_gles_make (scalarToInt bounds.width) (scalarToInt bounds.height)
            a.texture_gles_.isSome,
          .GetGLHandle,
          .SurfaceTextureAttachToGLContext (static_cast_jint texture_id),
          .state_assign .kAttached]
        { a with
          texture_gles_ :=
            some ⟨scalarToInt bounds.width, scalarToInt bounds.height, some texture_id⟩,
          state_ := .kAttached }).andThen
        (PaintAttached w context bounds freeze sampling) := by
  simp [Paint, PaintAttached, h, Inititialize_impeller w _ _ a texture_id hi hw, Outcome.andThen,
    Outcome.ok, Outcome.emit, FML_CHECK]

/-- On an uninitialised adapter, device-texture strategy without a handle, `Paint` ends
inside `Inititialize`. -/
theorem Paint_uninitialized_impeller_none (w : World) (context : PaintContext)
    (bounds : SkRect) (freeze : Bool) (sampling : DlImageSampling)
    (a : AndroidExternalTextureGL)
    (h : a.state_ = .kUninitialized) (hi : a.impeller_context_ = true)
    (hw : w.GetGLHandle = none) :
    Paint w context bounds freeze sampling a =
      ⟨[.texture_gles_make (scalarToInt bounds.width) (scalarToInt bounds.height)
            a.texture_gles_.isSome,
          .GetGLHandle], none⟩ := by
  simp [Paint, h, Inititialize_impeller_none w _ _ a hi hw, Outcome.andThen]

/-- The number of `Update` calls of `Paint` after initialisation. -/
theorem PaintAttached_updates (w : World) (context : PaintContext) (bounds : SkRect)
    (freeze : Bool) (sampling : DlImageSampling) (a : AndroidExternalTextureGL) :
    (PaintAttached w context bounds freeze sampling a).trace.countP Event.isUpdate =
      if (!freeze && a.new_frame_ready_) || a.external_image_.isNone then 1 else 0 := by
  unfold PaintAttached
  rw [Outcome.andThen_trace, List.countP_append, PaintUpdateStep_updates]
  cases (PaintUpdateStep w context freeze a).value with
  | none => simp
  | some a1 => simp [PaintDrawStep_updates]

/-- C1, as stated, fails three ways. On a detached adapter `MarkNewFrameAvailable` followed
by `Paint(freeze = false)` makes no `Update` call; on a constructed adapter, which has no
cached image, `MarkNewFrameAvailable` followed by `Paint(freeze = true)` makes one; and on a
constructed adapter of the device-texture strategy whose texture has no GL handle,
`MarkNewFrameAvailable` followed by `Paint(freeze = false)` makes none. -/
theorem MarkNewFrameAvailable_then_Paint_not_one_or_zero :
    ((MarkNewFrameAvailable { construct false with state_ := .kDetached }).andThen
        (Paint ⟨7, some 9, SkMatrix.I⟩ ⟨1, none⟩ ⟨0, 0, 4, 3⟩ false .kLinear)).trace.countP
        Event.isUpdate = 0 ∧
      ((MarkNewFrameAvailable (construct false)).andThen
        (Paint ⟨7, some 9, SkMatrix.I⟩ ⟨1, none⟩ ⟨0, 0, 4, 3⟩ true .kLinear)).trace.countP
        Event.isUpdate = 1 ∧
      ((MarkNewFrameAvailable (construct true)).andThen
        (Paint ⟨7, none, SkMatrix.I⟩ ⟨1, none⟩ ⟨0, 0, 4, 3⟩ false .kLinear)).trace.countP
        Event.isUpdate = 0 := by
  refine ⟨by decide, ?_, by decide⟩
  simp [MarkNewFrameAvailable, Outcome.andThen_trace, Outcome.ok, construct,
    Paint_uninitialized_raw, Outcome.emit, PaintAttached_updates, List.countP_cons,
    Event.isUpdate]

/-- C1, amended: whenever `Paint` gets through initialisation (the adapter is not
uninitialised, or uses the raw-handle strategy, or its device texture has a GL handle),
`MarkNewFrameAvailable` followed by `Paint(freeze = false)` makes exactly one `Update` call
unless the adapter is detached, when it makes none; and `MarkNewFrameAvailable` followed by
`Paint(freeze = true)` makes no `Update` call if the adapter is detached or holds a cached
image, and exactly one otherwise. -/
theorem MarkNewFrameAvailable_then_Paint_updates (w : World) (context : PaintContext)
    (bounds : SkRect) (sampling : DlImageSampling) (a : AndroidExternalTextureGL)
    (hinit : a.state_ = .kUninitialized → a.impeller_context_ = true →
      w.GetGLHandle.isSome = true) :
    ((MarkNewFrameAvailable a).andThen
        (Paint w context bounds false sampling)).trace.countP Event.isUpdate =
        (if a.state_ = .kDetached then 0 else 1) ∧
      ((MarkNewFrameAvailable a).andThen
        (Paint w context bounds true sampling)).trace.countP Event.isUpdate =
        (if a.state_ = .kDetached ∨ a.external_image_.isSome = true then 0 else 1) := by
  have key : ∀ freeze : Bool,
      ((MarkNewFrameAvailable a).andThen
        (Paint w context bounds freeze sampling)).trace.countP Event.isUpdate =
        (if a.state_ = .kDetached then 0
          else if (!freeze) || a.external_image_.isNone then 1 else 0) := by
    intro freeze
    simp only [MarkNewFrameAvailable, Outcome.andThen_trace, Outcome.ok, List.nil_append]
    cases hs : a.state_ with
    | kDetached => simp [Paint, hs, Outcome.ok]
    | kAttached =>
      rw [Paint_attached _ _ _ _ _ _ (by simp [hs]), PaintAttached_updates]
      simp
    | kUninitialized =>
      cases hi : a.impeller_context_ with
      | false =>
        rw [Paint_uninitialized_raw _ _ _ _ _ _ (by simp [hs]) (by simp [hi])]
        simp [Outcome.andThen_trace, Outcome.emit, PaintAttached_updates, List.countP_cons,
          Event.isUpdate]
      | true =>
        have hsome := hinit hs hi
        obtain ⟨texture_id, hw⟩ := Option.isSome_iff_exists.1 hsome
        rw [Paint_uninitialized_impeller _ _ _ _ _ _ texture_id (by simp [hs])
          (by simp [hi]) hw]
        simp [Outcome.andThen_trace, Outcome.emit, PaintAttached_updates, List.countP_cons,
          Event.isUpdate]
  refine ⟨?_, ?_⟩
  · rw [key false]; simp
  · rw [key true]
    cases hs : a.state_ <;> cases hi : a.external_image_ <;> simp

/-- Witness for C1, amended: a constructed adapter of the device-texture strategy whose
texture has handle 9. -/
theorem MarkNewFrameAvailable_then_Paint_updates_witness :
    ((MarkNewFrameAvailable (construct true)).andThen
        (Paint ⟨7, some 9, SkMatrix.I⟩ ⟨1, none⟩ ⟨0, 0, 4, 3⟩ false .kLinear)).trace.countP
        Event.isUpdate =
        (if (construct true).state_ = .kDetached then 0 else 1) ∧
      ((MarkNewFrameAvailable (construct true)).andThen
        (Paint ⟨7, some 9, SkMatrix.I⟩ ⟨1, none⟩ ⟨0, 0, 4, 3⟩ true .kLinear)).trace.countP
        Event.isUpdate =
        (if (construct true).state_ = .kDetached ∨
          (construct true).external_image_.isSome = true then 0 else 1) :=
  MarkNewFrameAvailable_then_Paint_updates _ _ _ _ _ (fun _ _ => rfl)

/-- The canvas events of the drawing step for image `image` under transform `transform`. -/
theorem PaintDrawStep_of_image (context : PaintContext) (bounds : SkRect)
    (sampling : DlImageSampling) (a : AndroidExternalTextureGL) (image : DlImage)
    (h : a.external_image_ = some image) :
    PaintDrawStep context bounds sampling a =
      ⟨[.Save, .Translate bounds.x (bounds.y + bounds.height),
          .Scale bounds.width (-bounds.height),
          if a.transform_ = SkMatrix.I then .DrawImage image 0 0 sampling context.paint
          else .DrawRect (SkRect.MakeWH 1 1)
            ((context.paint.getD DlPaint.default).setColorSource
              ⟨image, .kRepeat, .kRepeat, sampling, a.transform_⟩),
          .Restore], some a⟩ := by
  unfold PaintDrawStep
  rw [h]
  by_cases ht : a.transform_ = SkMatrix.I
  · simp [Outcome.emit, SkMatrix.isIdentity, ht]
  · cases context.paint <;> simp [Outcome.emit, SkMatrix.isIdentity, ht]

/-- What `Paint` does after initialisation when no update is needed. -/
theorem PaintAttached_cached (w : World) (context : PaintContext) (bounds : SkRect)
    (freeze : Bool) (sampling : DlImageSampling) (a : AndroidExternalTextureGL)
    (h : ((!freeze && a.new_frame_ready_) || a.external_image_.isNone) = false) :
    PaintAttached w context bounds freeze sampling a =
      PaintDrawStep context bounds sampling a := by
  simp [PaintAttached, PaintUpdateStep, h, Outcome.andThen, Outcome.ok]

/-- What `Paint` does after initialisation when an update is needed and the producer matrix is
inverted to `n`. -/
theorem PaintAttached_update (w : World) (context : PaintContext) (bounds : SkRect)
    (freeze : Bool) (sampling : DlImageSampling) (a : AndroidExternalTextureGL) (n : SkMatrix)
    (h : ((!freeze && a.new_frame_ready_) || a.external_image_.isNone) = true)
    (hi : w.SurfaceTextureGetTransformMatrix.invert = some n) :
    PaintAttached w context bounds freeze sampling a =
      (Outcome.emit [.SurfaceTextureUpdateTexImage, .SurfaceTextureGetTransformMatrix]
        { a with
          transform_ := n
          external_image_ :=
            some (match a.texture_gles_ with
              | some texture => .impeller texture
              | none => .borrowed context.gr_context a.texture_name_)
          new_frame_ready_ := false }).andThen
        (PaintDrawStep context bounds sampling) := by
  simp [PaintAttached, PaintUpdateStep, h, Update_of_invert w context a n hi, Outcome.andThen,
    Outcome.ok, Outcome.emit]

/-- What `Paint` does after initialisation when an update is needed and the producer matrix is
not inverted. -/
theorem PaintAttached_update_none (w : World) (context : PaintContext) (bounds : SkRect)
    (freeze : Bool) (sampling : DlImageSampling) (a : AndroidExternalTextureGL)
    (h : ((!freeze && a.new_frame_ready_) || a.external_image_.isNone) = true)
    (hi : w.SurfaceTextureGetTransformMatrix.invert = none) :
    PaintAttached w context bounds freeze sampling a =
      ⟨[.SurfaceTextureUpdateTexImage, .SurfaceTextureGetTransformMatrix], none⟩ := by
  simp [PaintAttached, PaintUpdateStep, h, Update_of_invert_none w context a hi,
    Outcome.andThen]

/-- After initialisation `Paint` only updates the texture image, reads the transform and
talks to the canvas. -/
theorem PaintAttached_events (w : World) (context : PaintContext) (bounds : SkRect)
    (freeze : Bool) (sampling : DlImageSampling) (a : AndroidExternalTextureGL) :
    ∀ e ∈ (PaintAttached w context bounds freeze sampling a).trace,
      e = .SurfaceTextureUpdateTexImage ∨ e = .SurfaceTextureGetTransformMatrix ∨
        e.isCanvas = true := by
  intro e he
  cases hn : ((!freeze && a.new_frame_ready_) || a.external_image_.isNone) with
  | false =>
    rw [PaintAttached_cached _ _ _ _ _ _ hn] at he
    cases him : a.external_image_ with
    | none => simp [PaintDrawStep, him, Outcome.ok] at he
    | some image =>
      rw [PaintDrawStep_of_image _ _ _ _ image him] at he
      simp only [List.mem_cons, List.mem_singleton, List.not_mem_nil, or_false] at he
      rcases he with rfl | rfl | rfl | rfl | rfl <;> try simp [Event.isCanvas]
      split <;> simp [Event.isCanvas]
  | true =>
    cases hi : w.SurfaceTextureGetTransformMatrix.invert with
    | none =>
      rw [PaintAttached_update_none _ _ _ _ _ _ hn hi] at he
      simp at he
      rcases he with rfl | rfl <;> simp
    | some n =>
      rw [PaintAttached_update _ _ _ _ _ _ n hn hi, Outcome.andThen_trace] at he
      simp only [Outcome.emit, List.mem_append, List.mem_cons, List.not_mem_nil, or_false] at he
      rcases he with (rfl | rfl) | he
      · simp
      · simp
      · rw [PaintDrawStep_of_image _ _ _ _ _ rfl] at he
        simp only [List.mem_cons, List.mem_singleton, List.not_mem_nil, or_false] at he
        rcases he with rfl | rfl | rfl | rfl | rfl <;> try simp [Event.isCanvas]
        split <;> simp [Event.isCanvas]

/-- After initialisation `Paint` makes no attach call. -/
theorem PaintAttached_no_attach (w : World) (context : PaintContext) (bounds : SkRect)
    (freeze : Bool) (sampling : DlImageSampling) (a : AndroidExternalTextureGL) :
    (PaintAttached w context bounds freeze sampling a).trace.countP Event.isAttach = 0 := by
  rw [List.countP_eq_zero]
  intro e he
  rcases PaintAttached_events w context bounds freeze sampling a e he with rfl | rfl | hc
  · simp [Event.isAttach]
  · simp [Event.isAttach]
  · cases e <;> simp_all [Event.isAttach, Event.isCanvas]

/-- After initialisation `Paint`, when it completes, leaves the state and the strategy as
they were, leaves an image, and, unless frozen, leaves no frame pending. -/
theorem PaintAttached_value (w : World) (context : PaintContext) (bounds : SkRect)
    (freeze : Bool) (sampling : DlImageSampling) (a a1 : AndroidExternalTextureGL)
    (h : (PaintAttached w context bounds freeze sampling a).value = some a1) :
    a1.external_image_.isSome = true ∧ a1.state_ = a.state_ ∧
      (freeze = false → a1.new_frame_ready_ = false) ∧
      a1.impeller_context_ = a.impeller_context_ := by
  unfold PaintAttached Outcome.andThen at h
  cases hu : (PaintUpdateStep w context freeze a).value with
  | none => simp [hu] at h
  | some a2 =>
    have h2 := PaintUpdateStep_value w context freeze a a2 hu
    obtain ⟨image, him⟩ := Option.isSome_iff_exists.1 h2.1
    simp only [hu, PaintDrawStep_of_image _ _ _ _ image him] at h
    cases h
    exact h2

/-- A completed `Paint` on an adapter that is not detached leaves it attached, holding an
image, and, unless frozen, with no frame pending. -/
theorem Paint_value (w : World) (context : PaintContext) (bounds : SkRect)
    (freeze : Bool) (sampling : DlImageSampling) (a a1 : AndroidExternalTextureGL)
    (hs : a.state_ ≠ .kDetached)
    (h : (Paint w context bounds freeze sampling a).value = some a1) :
    a1.external_image_.isSome = true ∧ a1.state_ = .kAttached ∧
      (freeze = false → a1.new_frame_ready_ = false) ∧
      a1.impeller_context_ = a.impeller_context_ := by
  cases hst : a.state_ with
  | kDetached => exact absurd hst hs
  | kAttached =>
    rw [Paint_attached _ _ _ _ _ _ hst] at h
    have h2 := PaintAttached_value _ _ _ _ _ _ _ h
    exact ⟨h2.1, h2.2.1.trans hst, h2.2.2⟩
  | kUninitialized =>
    cases hi : a.impeller_context_ with
    | false =>
      rw [Paint_uninitialized_raw _ _ _ _ _ _ hst hi] at h
      simp only [Outcome.andThen, Outcome.emit] at h
      have h2 := PaintAttached_value _ _ _ _ _ _ _ h
      exact ⟨h2.1, h2.2.1, h2.2.2.1, h2.2.2.2.trans hi⟩
    | true =>
      cases hw : w.GetGLHandle with
      | none =>
        rw [Paint_uninitialized_impeller_none _ _ _ _ _ _ hst hi hw] at h
        simp at h
      | some texture_id =>
        rw [Paint_uninitialized_impeller _ _ _ _ _ _ texture_id hst hi hw] at h
        simp only [Outcome.andThen, Outcome.emit] at h
        have h2 := PaintAttached_value _ _ _ _ _ _ _ h
        exact ⟨h2.1, h2.2.1, h2.2.2.1, h2.2.2.2.trans hi⟩

/-- The events and result of a sequence whose first part completes. -/
theorem Outcome.emit_andThen (es : List Event) (a : AndroidExternalTextureGL)
    (f : AndroidExternalTextureGL → Outcome) :
    (Outcome.emit es a).andThen f = ⟨es ++ (f a).trace, (f a).value⟩ := rfl

/-- On an adapter that is not detached and whose initialisation does not fail, `Paint` runs
the events `pre` of initialisation (none for an attached adapter), which hold no canvas call,
and then its update and drawing steps on an adapter with the same transform, image and
pending-frame flag. -/
theorem Paint_after_init (w : World) (context : PaintContext) (bounds : SkRect)
    (freeze : Bool) (sampling : DlImageSampling) (a : AndroidExternalTextureGL)
    (hs : a.state_ ≠ .kDetached)
    (hinit : a.state_ = .kUninitialized → a.impeller_context_ = true →
      w.GetGLHandle.isSome = true) :
    ∃ pre a0,
      Paint w context bounds freeze sampling a =
        ⟨pre ++ (PaintAttached w context bounds freeze sampling a0).trace,
          (PaintAttached w context bounds freeze sampling a0).value⟩ ∧
      (∀ e ∈ pre, e.isCanvas = false) ∧
      a0.transform_ = a.transform_ ∧ a0.external_image_ = a.external_image_ ∧
      a0.new_frame_ready_ = a.new_frame_ready_ := by
  cases hst : a.state_ with
  | kDetached => exact absurd hst hs
  | kAttached =>
    exact ⟨[], a, by simp [Paint_attached _ _ _ _ _ _ hst], by simp, rfl, rfl, rfl⟩
  | kUninitialized =>
    by_cases hi : a.impeller_context_ = true
    · obtain ⟨texture_id, hw⟩ := Option.isSome_iff_exists.1 (hinit hst hi)
      refine
        ⟨[.texture_gles_make (scalarToInt bounds.width) (scalarToInt bounds.height)
              a.texture_gles_.isSome,
            .GetGLHandle,
            .SurfaceTextureAttachToGLContext (static_cast_jint texture_id),
            .state_assign .kAttached],
          { a with
            texture_gles_ :=
              some ⟨scalarToInt bounds.width, scalarToInt bounds.height, some texture_id⟩,
            state_ := .kAttached },
          ?_, ?_, rfl, rfl, rfl⟩
      · rw [Paint_uninitialized_impeller _ _ _ _ _ _ texture_id hst hi hw,
          Outcome.emit_andThen]
      · simp [Event.isCanvas]
    · have hi0 : a.impeller_context_ = false := by simpa using hi
      refine
        ⟨[.glGenTextures (w.glGenTextures % 2 ^ 32),
            .SurfaceTextureAttachToGLContext (static_cast_jint (w.glGenTextures % 2 ^ 32)),
            .state_assign .kAttached],
          { a with texture_name_ := w.glGenTextures % 2 ^ 32, state_ := .kAttached },
          ?_, ?_, rfl, rfl, rfl⟩
      · rw [Paint_uninitialized_raw _ _ _ _ _ _ hst hi0, Outcome.emit_andThen]
      · simp [Event.isCanvas]

/-- After initialisation `Paint` completes whenever the matrix it may have to read is
invertible; it then holds an image, its canvas calls are: save, move to the bottom of
`bounds`, flip, one drawing call chosen by the stored transform, restore; and the stored
transform is the inverse of the producer matrix when an update was needed, and the transform
held before otherwise. -/
theorem PaintAttached_completes (w : World) (context : PaintContext) (bounds : SkRect)
    (freeze : Bool) (sampling : DlImageSampling) (a : AndroidExternalTextureGL)
    (hm : ((!freeze && a.new_frame_ready_) || a.external_image_.isNone) = true →
      ∃ n : SkMatrix, w.SurfaceTextureGetTransformMatrix.concat n = SkMatrix.I ∧
        n.concat w.SurfaceTextureGetTransformMatrix = SkMatrix.I) :
    ∃ a1 image,
      (PaintAttached w context bounds freeze sampling a).value = some a1 ∧
      a1.external_image_ = some image ∧
      (PaintAttached w context bounds freeze sampling a).trace.filter Event.isCanvas =
        [.Save, .Translate bounds.x (bounds.y + bounds.height),
          .Scale bounds.width (-bounds.height),
          if a1.transform_ = SkMatrix.I then .DrawImage image 0 0 sampling context.paint
          else .DrawRect (SkRect.MakeWH 1 1)
            ((context.paint.getD DlPaint.default).setColorSource
              ⟨image, .kRepeat, .kRepeat, sampling, a1.transform_⟩),
          .Restore] ∧
      (if ((!freeze && a.new_frame_ready_) || a.external_image_.isNone) = true then
        a1.transform_.concat w.SurfaceTextureGetTransformMatrix = SkMatrix.I ∧
          w.SurfaceTextureGetTransformMatrix.concat a1.transform_ = SkMatrix.I ∧
          (a1.transform_ = SkMatrix.I ↔ w.SurfaceTextureGetTransformMatrix = SkMatrix.I)
      else a1.transform_ = a.transform_ ∧ a1.external_image_ = a.external_image_) := by
  have hfilter : ∀ (a2 : AndroidExternalTextureGL) (image : DlImage),
      List.filter Event.isCanvas
        [.Save, .Translate bounds.x (bounds.y + bounds.height),
          .Scale bounds.width (-bounds.height),
          if a2.transform_ = SkMatrix.I then .DrawImage image 0 0 sampling context.paint
          else .DrawRect (SkRect.MakeWH 1 1)
            ((context.paint.getD DlPaint.default).setColorSource
              ⟨image, .kRepeat, .kRepeat, sampling, a2.transform_⟩),
          .Restore] =
        [.Save, .Translate bounds.x (bounds.y + bounds.height),
          .Scale bounds.width (-bounds.height),
          if a2.transform_ = SkMatrix.I then .DrawImage image 0 0 sampling context.paint
          else .DrawRect (SkRect.MakeWH 1 1)
            ((context.paint.getD DlPaint.default).setColorSource
              ⟨image, .kRepeat, .kRepeat, sampling, a2.transform_⟩),
          .Restore] := by
    intro a2 image
    by_cases ht : a2.transform_ = SkMatrix.I <;> simp [ht, Event.isCanvas]
  cases hn : ((!freeze && a.new_frame_ready_) || a.external_image_.isNone) with
  | false =>
    rw [PaintAttached_cached _ _ _ _ _ _ hn]
    cases him : a.external_image_ with
    | none => simp [him] at hn
    | some image =>
      rw [PaintDrawStep_of_image _ _ _ _ image him]
      exact ⟨a, image, rfl, him, hfilter a image, by simp [him]⟩
  | true =>
    obtain ⟨n, hmn, hnm⟩ := hm hn
    have hi := SkMatrix.invert_eq_of_inverse _ n hmn
    rw [PaintAttached_update _ _ _ _ _ _ n hn hi, Outcome.emit_andThen,
      PaintDrawStep_of_image _ _ _ _ _ rfl]
    refine ⟨_, _, rfl, rfl, ?_, ?_⟩
    · rw [List.filter_append, hfilter]
      simp [Event.isCanvas]
    · simp only [if_true]
      exact ⟨hnm, hmn, SkMatrix.invert_eq_I_iff _ n hi⟩

/-- The producer matrix that halves both axes is inverted to the one that doubles them. -/
theorem SkMatrix.invert_half :
    SkMatrix.invert ⟨1 / 2, 0, 0, 0, 1 / 2, 0, 0, 0, 1⟩ = some ⟨2, 0, 0, 0, 2, 0, 0, 0, 1⟩ :=
  SkMatrix.invert_eq_of_inverse _ _ (by norm_num [SkMatrix.concat, SkMatrix.I])

/-- The first `Paint` of a constructed raw-handle adapter when the producer halves both
axes. -/
theorem Paint_construct_half :
    Paint ⟨7, none, ⟨1 / 2, 0, 0, 0, 1 / 2, 0, 0, 0, 1⟩⟩ ⟨1, none⟩ ⟨0, 0, 4, 3⟩ false .kLinear
        (construct false) =
      ⟨[.glGenTextures 7, .SurfaceTextureAttachToGLContext 7, .state_assign .kAttached,
          .SurfaceTextureUpdateTexImage, .SurfaceTextureGetTransformMatrix,
          .Save, .Translate 0 3, .Scale 4 (-3),
          .DrawRect ⟨0, 0, 1, 1⟩
            ⟨0, some ⟨.borrowed 1 7, .kRepeat, .kRepeat, .kLinear, ⟨2, 0, 0, 0, 2, 0, 0, 0, 1⟩⟩⟩,
          .Restore],
        some ⟨false, .kAttached, false, ⟨2, 0, 0, 0, 2, 0, 0, 0, 1⟩, some (.borrowed 1 7),
          none, 7⟩⟩ := by
  rw [Paint_uninitialized_raw _ _ _ _ _ _ rfl rfl, Outcome.emit_andThen,
    PaintAttached_update _ _ _ false _ _ _ (by simp [construct]) SkMatrix.invert_half,
    Outcome.emit_andThen, PaintDrawStep_of_image _ _ _ _ _ rfl]
  norm_num [construct, static_cast_jint, SkRect.x, SkRect.y, SkRect.width, SkRect.height,
    SkMatrix.I, SkRect.MakeWH, DlPaint.default, DlPaint.setColorSource]

/-- The first `Paint` of a constructed device-texture adapter whose texture has handle 9,
when the producer matrix is the identity. -/
theorem Paint_construct_impeller :
    Paint ⟨7, some 9, SkMatrix.I⟩ ⟨1, none⟩ ⟨0, 0, 4, 3⟩ false .kLinear (construct true) =
      ⟨[.texture_gles_make 4 3 false, .GetGLHandle, .SurfaceTextureAttachToGLContext 9,
          .state_assign .kAttached,
          .SurfaceTextureUpdateTexImage, .SurfaceTextureGetTransformMatrix,
          .Save, .Translate 0 3, .Scale 4 (-3),
          .DrawImage (.impeller ⟨4, 3, some 9⟩) 0 0 .kLinear none,
          .Restore],
        some ⟨true, .kAttached, false, SkMatrix.I, some (.impeller ⟨4, 3, some 9⟩),
          some ⟨4, 3, some 9⟩, 0⟩⟩ := by
  rw [Paint_uninitialized_impeller _ _ _ _ _ _ 9 rfl rfl rfl, Outcome.emit_andThen,
    PaintAttached_update _ _ _ false _ _ _ (by simp [construct]) SkMatrix.invert_I,
    Outcome.emit_andThen, PaintDrawStep_of_image _ _ _ _ _ rfl]
  norm_num [construct, static_cast_jint, SkRect.x, SkRect.y, SkRect.width, SkRect.height,
    scalarToInt]

/-- C2, as stated, fails on a detached adapter: after `OnGrContextDestroyed` the first
`Paint(freeze = false)` leaves the adapter as it is, without a cached image, and the second
`Paint(freeze = false)` has no event at all, so it draws nothing. -/
theorem second_Paint_detached_draws_nothing :
    runCalls
        [.OnGrContextDestroyed,
          .Paint ⟨7, some 9, SkMatrix.I⟩ ⟨1, none⟩ ⟨0, 0, 4, 3⟩ false .kLinear]
        (construct false) = some { construct false with state_ := .kDetached } ∧
      (Paint ⟨7, some 9, SkMatrix.I⟩ ⟨1, none⟩ ⟨0, 0, 4, 3⟩ false .kLinear
        { construct false with state_ := .kDetached }).trace = [] := by
  constructor
  · simp [runCalls, Call.run, OnGrContextDestroyed, Paint, construct, Outcome.andThen,
      Outcome.emit, Outcome.ok]
  · rw [Paint_of_detached _ _ _ _ _ _ rfl]

/-- C2, amended: on an adapter that is not detached, once a first `Paint(freeze = false)` has
completed, a second `Paint(freeze = false)` with nothing in between, whatever its other
arguments, makes no `Update` call, completes without changing the adapter, and its events are
exactly the canvas calls that draw the image the first call left cached. -/
theorem second_Paint_reuses_cached_image (w1 w2 : World) (context1 context2 : PaintContext)
    (bounds1 bounds2 : SkRect) (sampling1 sampling2 : DlImageSampling)
    (a a1 : AndroidExternalTextureGL) (hs : a.state_ ≠ .kDetached)
    (h1 : (Paint w1 context1 bounds1 false sampling1 a).value = some a1) :
    (Paint w2 context2 bounds2 false sampling2 a1).trace.countP Event.isUpdate = 0 ∧
      (Paint w2 context2 bounds2 false sampling2 a1).value = some a1 ∧
      ∃ image, a1.external_image_ = some image ∧
        (Paint w2 context2 bounds2 false sampling2 a1).trace =
          [.Save, .Translate bounds2.x (bounds2.y + bounds2.height),
            .Scale bounds2.width (-bounds2.height),
            if a1.transform_ = SkMatrix.I then .DrawImage image 0 0 sampling2 context2.paint
            else .DrawRect (SkRect.MakeWH 1 1)
              ((context2.paint.getD DlPaint.default).setColorSource
                ⟨image, .kRepeat, .kRepeat, sampling2, a1.transform_⟩),
            .Restore] := by
  obtain ⟨him, hst, hnf, -⟩ := Paint_value _ _ _ _ _ _ _ hs h1
  obtain ⟨image, him⟩ := Option.isSome_iff_exists.1 him
  have hn : ((!false && a1.new_frame_ready_) || a1.external_image_.isNone) = false := by
    simp [hnf rfl, him]
  rw [Paint_attached _ _ _ _ _ _ hst, PaintAttached_cached _ _ _ _ _ _ hn,
    PaintDrawStep_of_image _ _ _ _ image him]
  refine ⟨?_, rfl, image, him, rfl⟩
  by_cases ht : a1.transform_ = SkMatrix.I <;> simp [ht, Event.isUpdate]

/-- Witness for C2, amended: the two first `Paint` calls of a constructed raw-handle adapter
whose producer halves both axes. -/
theorem second_Paint_reuses_cached_image_witness :
    (Paint ⟨8, none, SkMatrix.I⟩ ⟨1, none⟩ ⟨0, 0, 4, 3⟩ false .kLinear
        ⟨false, .kAttached, false, ⟨2, 0, 0, 0, 2, 0, 0, 0, 1⟩, some (.borrowed 1 7), none,
          7⟩).trace.countP Event.isUpdate = 0 ∧
      (Paint ⟨8, none, SkMatrix.I⟩ ⟨1, none⟩ ⟨0, 0, 4, 3⟩ false .kLinear
        ⟨false, .kAttached, false, ⟨2, 0, 0, 0, 2, 0, 0, 0, 1⟩, some (.borrowed 1 7), none,
          7⟩).value =
        some ⟨false, .kAttached, false, ⟨2, 0, 0, 0, 2, 0, 0, 0, 1⟩, some (.borrowed 1 7),
          none, 7⟩ ∧
      ∃ image,
        AndroidExternalTextureGL.external_image_
            ⟨false, .kAttached, false, ⟨2, 0, 0, 0, 2, 0, 0, 0, 1⟩, some (.borrowed 1 7), none,
              7⟩ = some image ∧
          (Paint ⟨8, none, SkMatrix.I⟩ ⟨1, none⟩ ⟨0, 0, 4, 3⟩ false .kLinear
            ⟨false, .kAttached, false, ⟨2, 0, 0, 0, 2, 0, 0, 0, 1⟩, some (.borrowed 1 7), none,
              7⟩).trace =
            [.Save,
              .Translate (SkRect.x ⟨0, 0, 4, 3⟩) (SkRect.y ⟨0, 0, 4, 3⟩ + SkRect.height ⟨0, 0, 4, 3⟩),
              .Scale (SkRect.width ⟨0, 0, 4, 3⟩) (-SkRect.height ⟨0, 0, 4, 3⟩),
              if AndroidExternalTextureGL.transform_
                  ⟨false, .kAttached, false, ⟨2, 0, 0, 0, 2, 0, 0, 0, 1⟩, some (.borrowed 1 7),
                    none, 7⟩ = SkMatrix.I
              then .DrawImage image 0 0 .kLinear (PaintContext.paint ⟨1, none⟩)
              else .DrawRect (SkRect.MakeWH 1 1)
                (((PaintContext.paint ⟨1, none⟩).getD DlPaint.default).setColorSource
                  ⟨image, .kRepeat, .kRepeat, .kLinear,
                    AndroidExternalTextureGL.transform_
                      ⟨false, .kAttached, false, ⟨2, 0, 0, 0, 2, 0, 0, 0, 1⟩,
                        some (.borrowed 1 7), none, 7⟩⟩),
              .Restore] :=
  second_Paint_reuses_cached_image
    ⟨7, none, ⟨1 / 2, 0, 0, 0, 1 / 2, 0, 0, 0, 1⟩⟩ ⟨8, none, SkMatrix.I⟩ ⟨1, none⟩ ⟨1, none⟩
    ⟨0, 0, 4, 3⟩ ⟨0, 0, 4, 3⟩ .kLinear .kLinear (construct false) _
    (by simp [construct]) (by rw [Paint_construct_half])

/-- C8, as stated, fails: the drawing call is chosen by the stored transform, which is
refreshed only by an update. A constructed raw-handle adapter whose producer halves both axes
stores the doubling transform in its first `Paint`; in a second `Paint(freeze = false)` with
no new frame the producer's transform is the identity, yet no update is made and the cached
image is drawn by `DrawRect` through the colour source, with no `DrawImage`. -/
theorem Paint_identity_producer_draws_rect :
    (Paint ⟨7, none, ⟨1 / 2, 0, 0, 0, 1 / 2, 0, 0, 0, 1⟩⟩ ⟨1, none⟩ ⟨0, 0, 4, 3⟩ false .kLinear
        (construct false)).value =
        some ⟨false, .kAttached, false, ⟨2, 0, 0, 0, 2, 0, 0, 0, 1⟩, some (.borrowed 1 7),
          none, 7⟩ ∧
      World.SurfaceTextureGetTransformMatrix ⟨8, none, SkMatrix.I⟩ = SkMatrix.I ∧
      (Paint ⟨8, none, SkMatrix.I⟩ ⟨1, none⟩ ⟨0, 0, 4, 3⟩ false .kLinear
        ⟨false, .kAttached, false, ⟨2, 0, 0, 0, 2, 0, 0, 0, 1⟩, some (.borrowed 1 7), none,
          7⟩).trace =
        [.Save, .Translate 0 3, .Scale 4 (-3),
          .DrawRect ⟨0, 0, 1, 1⟩
            ⟨0, some ⟨.borrowed 1 7, .kRepeat, .kRepeat, .kLinear, ⟨2, 0, 0, 0, 2, 0, 0, 0, 1⟩⟩⟩,
          .Restore] := by
  refine ⟨by rw [Paint_construct_half], rfl, ?_⟩
  rw [Paint_attached _ _ _ _ _ _ rfl, PaintAttached_cached _ _ _ false _ _ (by simp),
    PaintDrawStep_of_image _ _ _ _ _ rfl]
  norm_num [SkRect.x, SkRect.y, SkRect.width, SkRect.height, SkMatrix.I, SkRect.MakeWH,
    DlPaint.default, DlPaint.setColorSource]

/-- C8, amended: every `Paint` call on an adapter that is not detached, whose initialisation
does not fail and which, if it has to update, reads an invertible producer matrix, completes,
holds a cached image afterwards, and draws it: its canvas calls are a save, the move to the
bottom of `bounds`, the vertical flip, exactly one drawing call and a restore. The drawing
call is chosen by the stored transform: `DrawImage` of the cached image at the origin when it
is the identity, and otherwise `DrawRect` of the 1×1 rectangle with a paint whose colour
source is the cached image, `kRepeat` on both axes, the given sampling and the stored
transform. When the call updates (`needs_update`), the stored transform is the inverse of the
producer matrix it reads, so it is the identity exactly when the producer's is; when it does
not, the stored transform and the image are those held before the call, whatever the producer
reports. -/
theorem Paint_draws_by_stored_transform (w : World) (context : PaintContext) (bounds : SkRect)
    (freeze : Bool) (sampling : DlImageSampling) (a : AndroidExternalTextureGL)
    (hs : a.state_ ≠ .kDetached)
    (hinit : a.state_ = .kUninitialized → a.impeller_context_ = true →
      w.GetGLHandle.isSome = true)
    (hm : ((!freeze && a.new_frame_ready_) || a.external_image_.isNone) = true →
      ∃ n : SkMatrix, w.SurfaceTextureGetTransformMatrix.concat n = SkMatrix.I ∧
        n.concat w.SurfaceTextureGetTransformMatrix = SkMatrix.I) :
    ∃ a1 image,
      (Paint w context bounds freeze sampling a).value = some a1 ∧
      a1.external_image_ = some image ∧
      (Paint w context bounds freeze sampling a).trace.filter Event.isCanvas =
        [.Save, .Translate bounds.x (bounds.y + bounds.height),
          .Scale bounds.width (-bounds.height),
          if a1.transform_ = SkMatrix.I then .DrawImage image 0 0 sampling context.paint
          else .DrawRect (SkRect.MakeWH 1 1)
            ((context.paint.getD DlPaint.default).setColorSource
              ⟨image, .kRepeat, .kRepeat, sampling, a1.transform_⟩),
          .Restore] ∧
      (if ((!freeze && a.new_frame_ready_) || a.external_image_.isNone) = true then
        a1.transform_.concat w.SurfaceTextureGetTransformMatrix = SkMatrix.I ∧
          w.SurfaceTextureGetTransformMatrix.concat a1.transform_ = SkMatrix.I ∧
          (a1.transform_ = SkMatrix.I ↔ w.SurfaceTextureGetTransformMatrix = SkMatrix.I)
      else a1.transform_ = a.transform_ ∧ a1.external_image_ = a.external_image_) := by
  obtain ⟨pre, a0, hp, hpre, ht0, hi0, hn0⟩ :=
    Paint_after_init w context bounds freeze sampling a hs hinit
  have hpc : pre.filter Event.isCanvas = [] :=
    List.filter_eq_nil_iff.2 fun e he => by simp [hpre e he]
  obtain ⟨a1, image, hv, him, hcan, hlink⟩ :=
    PaintAttached_completes w context bounds freeze sampling a0 (by rw [hn0, hi0]; exact hm)
  rw [hn0, hi0, ht0] at hlink
  refine ⟨a1, image, by rw [hp]; exact hv, him, ?_, hlink⟩
  rw [hp]
  simp only [List.filter_append, hpc, List.nil_append]
  exact hcan

/-- Witness for C8, amended: the first `Paint` of a constructed raw-handle adapter whose
producer halves both axes. -/
theorem Paint_draws_by_stored_transform_witness :
    ∃ a1 image,
      (Paint ⟨7, none, ⟨1 / 2, 0, 0, 0, 1 / 2, 0, 0, 0, 1⟩⟩ ⟨1, none⟩ ⟨0, 0, 4, 3⟩ false
        .kLinear (construct false)).value = some a1 ∧
      a1.external_image_ = some image ∧
      (Paint ⟨7, none, ⟨1 / 2, 0, 0, 0, 1 / 2, 0, 0, 0, 1⟩⟩ ⟨1, none⟩ ⟨0, 0, 4, 3⟩ false
        .kLinear (construct false)).trace.filter Event.isCanvas =
        [.Save,
          .Translate (SkRect.x ⟨0, 0, 4, 3⟩) (SkRect.y ⟨0, 0, 4, 3⟩ + SkRect.height ⟨0, 0, 4, 3⟩),
          .Scale (SkRect.width ⟨0, 0, 4, 3⟩) (-SkRect.height ⟨0, 0, 4, 3⟩),
          if a1.transform_ = SkMatrix.I then
            .DrawImage image 0 0 .kLinear (PaintContext.paint ⟨1, none⟩)
          else .DrawRect (SkRect.MakeWH 1 1)
            (((PaintContext.paint ⟨1, none⟩).getD DlPaint.default).setColorSource
              ⟨image, .kRepeat, .kRepeat, .kLinear, a1.transform_⟩),
          .Restore] ∧
      (if ((!false && (construct false).new_frame_ready_) ||
          (construct false).external_image_.isNone) = true then
        a1.transform_.concat
            (World.SurfaceTextureGetTransformMatrix
              ⟨7, none, ⟨1 / 2, 0, 0, 0, 1 / 2, 0, 0, 0, 1⟩⟩) = SkMatrix.I ∧
          (World.SurfaceTextureGetTransformMatrix
              ⟨7, none, ⟨1 / 2, 0, 0, 0, 1 / 2, 0, 0, 0, 1⟩⟩).concat a1.transform_ =
            SkMatrix.I ∧
          (a1.transform_ = SkMatrix.I ↔
            World.SurfaceTextureGetTransformMatrix
              ⟨7, none, ⟨1 / 2, 0, 0, 0, 1 / 2, 0, 0, 0, 1⟩⟩ = SkMatrix.I)
      else a1.transform_ = (construct false).transform_ ∧
        a1.external_image_ = (construct false).external_image_) :=
  Paint_draws_by_stored_transform _ _ _ _ _ _ (by simp [construct]) (fun _ h => by
    simp [construct] at h)
    (fun _ => ⟨⟨2, 0, 0, 0, 2, 0, 0, 0, 1⟩, by norm_num [SkMatrix.concat, SkMatrix.I],
      by norm_num [SkMatrix.concat, SkMatrix.I]⟩)

/-- C7, as stated, fails for the device-texture strategy when the texture made in
`Inititialize` has no GL handle: the first `Paint` of the constructed adapter ends in
`FML_CHECK(maybe_handle.has_value())`, having made no attach call and no assignment to
`state_`. -/
theorem first_Paint_without_handle_is_fatal :
    (Paint ⟨7, none, SkMatrix.I⟩ ⟨1, none⟩ ⟨0, 0, 4, 3⟩ false .kLinear
        (construct true)).trace.countP Event.isAttach = 0 ∧
      (Paint ⟨7, none, SkMatrix.I⟩ ⟨1, none⟩ ⟨0, 0, 4, 3⟩ false .kLinear
        (construct true)).trace.countP (fun e => decide (e = .state_assign .kAttached)) = 0 ∧
      (Paint ⟨7, none, SkMatrix.I⟩ ⟨1, none⟩ ⟨0, 0, 4, 3⟩ false .kLinear
        (construct true)).value = none := by
  rw [Paint_uninitialized_impeller_none _ _ _ _ _ _ rfl rfl rfl]
  simp [Event.isAttach]

/-- C7, amended: for a constructed adapter of the raw-handle strategy, and for one of the
device-texture strategy whose texture has a GL handle, the events of the first `Paint` begin
with those that obtain the texture handle (`glGenTextures`, or making the device texture and
asking for its handle), then the one attach call, made with that handle converted to `jint`,
then the assignment of `kAttached` to `state_`; what follows holds no other attach call, and
all canvas calls are in it; if the call completes the adapter is `kAttached`. -/
theorem first_Paint_attaches_before_drawing (impeller_context : Bool) (w : World)
    (context : PaintContext) (bounds : SkRect) (freeze : Bool) (sampling : DlImageSampling)
    (h : impeller_context = true → w.GetGLHandle.isSome = true) :
    ∃ rest : List Event,
      (Paint w context bounds freeze sampling (construct impeller_context)).trace =
        (if impeller_context then
            [.texture_gles_make (scalarToInt bounds.width) (scalarToInt bounds.height) false,
              .GetGLHandle]
          else [.glGenTextures (w.glGenTextures % 2 ^ 32)]) ++
        [.SurfaceTextureAttachToGLContext
            (static_cast_jint
              (if impeller_context then w.GetGLHandle.getD 0 else w.glGenTextures % 2 ^ 32)),
          .state_assign .kAttached] ++ rest ∧
      rest.countP Event.isAttach = 0 ∧
      ∀ a1, (Paint w context bounds freeze sampling (construct impeller_context)).value = some a1 →
        a1.state_ = .kAttached := by
  have hv : ∀ a1,
      (Paint w context bounds freeze sampling (construct impeller_context)).value = some a1 →
        a1.state_ = .kAttached := fun a1 h1 =>
    (Paint_value _ _ _ _ _ _ a1 (by simp [construct]) h1).2.1
  cases impeller_context with
  | false =>
    refine
      ⟨(PaintAttached w context bounds freeze sampling
          { construct false with
            texture_name_ := w.glGenTextures % 2 ^ 32, state_ := .kAttached }).trace,
        ?_, PaintAttached_no_attach w context bounds freeze sampling _, hv⟩
    rw [Paint_uninitialized_raw _ _ _ _ _ _ rfl rfl, Outcome.emit_andThen]
    rfl
  | true =>
    obtain ⟨texture_id, hw⟩ := Option.isSome_iff_exists.1 (h rfl)
    refine
      ⟨(PaintAttached w context bounds freeze sampling
          { construct true with
            texture_gles_ :=
              some ⟨scalarToInt bounds.width, scalarToInt bounds.height, some texture_id⟩,
            state_ := .kAttached }).trace,
        ?_, PaintAttached_no_attach w context bounds freeze sampling _, hv⟩
    rw [Paint_uninitialized_impeller _ _ _ _ _ _ texture_id rfl rfl hw, Outcome.emit_andThen,
      hw]
    rfl

/-- Witness for C7, amended: the device-texture strategy with a texture of handle 9. -/
theorem first_Paint_attaches_before_drawing_witness :
    ∃ rest : List Event,
      (Paint ⟨7, some 9, SkMatrix.I⟩ ⟨1, none⟩ ⟨0, 0, 4, 3⟩ false .kLinear
        (construct true)).trace =
        (if true = true then
            [.texture_gles_make (scalarToInt (SkRect.width ⟨0, 0, 4, 3⟩))
                (scalarToInt (SkRect.height ⟨0, 0, 4, 3⟩)) false,
              .GetGLHandle]
          else [.glGenTextures (World.glGenTextures ⟨7, some 9, SkMatrix.I⟩ % 2 ^ 32)]) ++
        [.SurfaceTextureAttachToGLContext
            (static_cast_jint
              (if true = true then (World.GetGLHandle ⟨7, some 9, SkMatrix.I⟩).getD 0
                else World.glGenTextures ⟨7, some 9, SkMatrix.I⟩ % 2 ^ 32)),
          .state_assign .kAttached] ++ rest ∧
      rest.countP Event.isAttach = 0 ∧
      ∀ a1, (Paint ⟨7, some 9, SkMatrix.I⟩ ⟨1, none⟩ ⟨0, 0, 4, 3⟩ false .kLinear
        (construct true)).value = some a1 → a1.state_ = .kAttached :=
  first_Paint_attaches_before_drawing true ⟨7, some 9, SkMatrix.I⟩ ⟨1, none⟩ ⟨0, 0, 4, 3⟩
    false .kLinear (fun _ => rfl)

/-- What `OnGrContextDestroyed` does on an attached adapter of the raw-handle strategy: both
resets, the detach call, `glDeleteTextures`, then `kDetached`. -/
theorem OnGrContextDestroyed_raw_attached (a : AndroidExternalTextureGL)
    (hi : a.impeller_context_ = false) (hs : a.state_ = .kAttached) :
    OnGrContextDestroyed a =
      ⟨[.external_image_reset, .texture_gles_reset, .SurfaceTextureDetachFromGLContext,
          .glDeleteTextures a.texture_name_, .state_assign .kDetached],
        some { a with external_image_ := none, texture_gles_ := none, state_ := .kDetached }⟩ := by
  simp [OnGrContextDestroyed, Outcome.andThen, Outcome.emit, Outcome.ok, Detach, hi, hs]

/-- What `OnGrContextDestroyed` does on any adapter of the device-texture strategy: both
resets, then `kDetached`; the guard `impeller_context_ == nullptr` skips the rest. -/
theorem OnGrContextDestroyed_impeller (a : AndroidExternalTextureGL)
    (hi : a.impeller_context_ = true) :
    OnGrContextDestroyed a =
      ⟨[.external_image_reset, .texture_gles_reset, .state_assign .kDetached],
        some { a with external_image_ := none, texture_gles_ := none, state_ := .kDetached }⟩ := by
  simp [OnGrContextDestroyed, Outcome.andThen, Outcome.emit, Outcome.ok, hi]

/-- C9, at the failing input: the adapter of the device-texture strategy left attached by its
first `Paint` (which made the attach call with handle 9). `OnGrContextDestroyed` drops the
image and the device texture and leaves `kDetached`, but makes no detach call. -/
theorem OnGrContextDestroyed_impeller_makes_no_detach :
    (Paint ⟨7, some 9, SkMatrix.I⟩ ⟨1, none⟩ ⟨0, 0, 4, 3⟩ false .kLinear
        (construct true)).value =
        some ⟨true, .kAttached, false, SkMatrix.I, some (.impeller ⟨4, 3, some 9⟩),
          some ⟨4, 3, some 9⟩, 0⟩ ∧
      (Paint ⟨7, some 9, SkMatrix.I⟩ ⟨1, none⟩ ⟨0, 0, 4, 3⟩ false .kLinear
        (construct true)).trace.countP Event.isAttach = 1 ∧
      OnGrContextDestroyed
          ⟨true, .kAttached, false, SkMatrix.I, some (.impeller ⟨4, 3, some 9⟩),
            some ⟨4, 3, some 9⟩, 0⟩ =
        ⟨[.external_image_reset, .texture_gles_reset, .state_assign .kDetached],
          some ⟨true, .kDetached, false, SkMatrix.I, none, none, 0⟩⟩ ∧
      (OnGrContextDestroyed
          ⟨true, .kAttached, false, SkMatrix.I, some (.impeller ⟨4, 3, some 9⟩),
            some ⟨4, 3, some 9⟩, 0⟩).trace.countP Event.isDetach = 0 := by
  rw [Paint_construct_impeller, OnGrContextDestroyed_impeller _ rfl]
  simp [Event.isAttach, Event.isDetach]

/-- What `OnGrContextCreated` does: `kUninitialized`, then both resets. -/
theorem OnGrContextCreated_eq (a : AndroidExternalTextureGL) :
    OnGrContextCreated a =
      ⟨[.state_assign .kUninitialized, .external_image_reset, .texture_gles_reset],
        some { a with
          state_ := .kUninitialized, external_image_ := none, texture_gles_ := none }⟩ := by
  simp [OnGrContextCreated, Outcome.andThen, Outcome.emit]

/-- The events of `OnGrContextDestroyed` begin with `external_image_.reset()`, and the call
completes, detached, with no image and no device texture. -/
theorem OnGrContextDestroyed_eq (a : AndroidExternalTextureGL) :
    ∃ t, OnGrContextDestroyed a =
      ⟨.external_image_reset :: t,
        some { a with external_image_ := none, texture_gles_ := none, state_ := .kDetached }⟩ := by
  by_cases hi : a.impeller_context_ = true
  · exact ⟨_, OnGrContextDestroyed_impeller a hi⟩
  · have hi0 : a.impeller_context_ = false := by simpa using hi
    by_cases hs : a.state_ = .kAttached
    · exact ⟨_, OnGrContextDestroyed_raw_attached a hi0 hs⟩
    · exact ⟨[.texture_gles_reset, .state_assign .kDetached], by
        simp [OnGrContextDestroyed, Outcome.andThen, Outcome.emit, Outcome.ok, hi0, hs]⟩

/-- In a list of events that begins with the reset of the image, whatever releases the
texture comes after a reset of the image. -/
theorem release_after_head_reset (r e : Event) (t pre post : List Event)
    (hr : r.isImageReset = true) (hrr : r.isRelease = false)
    (h : r :: t = pre ++ e :: post) (he : e.isRelease = true) :
    ∃ x ∈ pre, x.isImageReset = true := by
  cases pre with
  | nil =>
    simp only [List.nil_append, List.cons.injEq] at h
    rw [h.1, he] at hrr
    cases hrr
  | cons p pre1 =>
    simp only [List.cons_append, List.cons.injEq] at h
    exact ⟨r, by simp [h.1], hr⟩

/-- A call keeps: the image is set only on an attached adapter, and an uninitialised adapter
holds no device texture. -/
theorem Call.run_invariant (c : Call) (a a1 : AndroidExternalTextureGL)
    (hinv : (a.external_image_.isSome = true → a.state_ = .kAttached) ∧
      (a.state_ = .kUninitialized → a.texture_gles_ = none))
    (h : (c.run a).value = some a1) :
    (a1.external_image_.isSome = true → a1.state_ = .kAttached) ∧
      (a1.state_ = .kUninitialized → a1.texture_gles_ = none) := by
  cases c with
  | Paint w context bounds freeze sampling =>
    simp only [Call.run] at h
    by_cases hs : a.state_ = .kDetached
    · rw [Paint_of_detached _ _ _ _ _ _ hs] at h
      cases h
      exact hinv
    · have hv := (Paint_value _ _ _ _ _ _ a1 hs h).2.1
      exact ⟨fun _ => hv, fun hu => by rw [hv] at hu; cases hu⟩
  | MarkNewFrameAvailable =>
    simp only [Call.run, MarkNewFrameAvailable, Outcome.ok] at h
    cases h
    exact hinv
  | OnGrContextCreated =>
    simp only [Call.run, OnGrContextCreated_eq] at h
    cases h
    simp
  | OnGrContextDestroyed =>
    obtain ⟨t, ht⟩ := OnGrContextDestroyed_eq a
    simp only [Call.run, ht] at h
    cases h
    simp
  | OnTextureUnregistered =>
    simp only [Call.run, OnTextureUnregistered, Outcome.ok] at h
    cases h
    exact hinv

/-- A sequence of calls keeps the same. -/
theorem runCalls_invariant (calls : List Call) (a a1 : AndroidExternalTextureGL)
    (hinv : (a.external_image_.isSome = true → a.state_ = .kAttached) ∧
      (a.state_ = .kUninitialized → a.texture_gles_ = none))
    (h : runCalls calls a = some a1) :
    (a1.external_image_.isSome = true → a1.state_ = .kAttached) ∧
      (a1.state_ = .kUninitialized → a1.texture_gles_ = none) := by
  induction calls generalizing a with
  | nil =>
    simp only [runCalls, Option.some.injEq] at h
    subst h
    exact hinv
  | cons c cs ih =>
    simp only [runCalls] at h
    cases hc : (c.run a).value with
    | none => simp [hc] at h
    | some a2 =>
      simp only [hc] at h
      exact ih a2 (Call.run_invariant c a a2 hinv hc) h

/-- On an adapter that holds no device texture while uninitialised, `Paint` has no event that
releases the texture. -/
theorem Paint_no_release (w : World) (context : PaintContext) (bounds : SkRect)
    (freeze : Bool) (sampling : DlImageSampling) (a : AndroidExternalTextureGL)
    (hinv : a.state_ = .kUninitialized → a.texture_gles_ = none) :
    ∀ e ∈ (Paint w context bounds freeze sampling a).trace, e.isRelease = false := by
  have hpa : ∀ a0 : AndroidExternalTextureGL,
      ∀ e ∈ (PaintAttached w context bounds freeze sampling a0).trace,
        e.isRelease = false := by
    intro a0 e he
    rcases PaintAttached_events w context bounds freeze sampling a0 e he with rfl | rfl | hc
    · rfl
    · rfl
    · cases e <;> simp_all [Event.isRelease, Event.isCanvas]
  intro e he
  cases hst : a.state_ with
  | kDetached =>
    rw [Paint_of_detached _ _ _ _ _ _ hst] at he
    simp at he
  | kAttached =>
    rw [Paint_attached _ _ _ _ _ _ hst] at he
    exact hpa a e he
  | kUninitialized =>
    have htex := hinv hst
    cases hi : a.impeller_context_ with
    | false =>
      rw [Paint_uninitialized_raw _ _ _ _ _ _ hst hi, Outcome.emit_andThen] at he
      simp only [List.mem_append, List.mem_cons, List.not_mem_nil, or_false] at he
      rcases he with (rfl | rfl | rfl) | he
      · rfl
      · rfl
      · rfl
      · exact hpa _ e he
    | true =>
      cases hw : w.GetGLHandle with
      | none =>
        rw [Paint_uninitialized_impeller_none _ _ _ _ _ _ hst hi hw, htex] at he
        simp only [List.mem_cons, List.not_mem_nil, or_false] at he
        rcases he with rfl | rfl <;> rfl
      | some texture_id =>
        rw [Paint_uninitialized_impeller _ _ _ _ _ _ texture_id hst hi hw,
          Outcome.emit_andThen, htex] at he
        simp only [List.mem_append, List.mem_cons, List.not_mem_nil, or_false] at he
        rcases he with (rfl | rfl | rfl | rfl) | he
        · rfl
        · rfl
        · rfl
        · rfl
        · exact hpa _ e he

/-- C10, as stated, fails for the destructor. The raw-handle adapter left by its first `Paint`
is attached and holds a cached image; the first event of its destructor is
`glDeleteTextures`, and the cached image is dropped only after it, with the members. -/
theorem Destructor_releases_before_image_reset :
    runCalls
        [.Paint ⟨7, none, ⟨1 / 2, 0, 0, 0, 1 / 2, 0, 0, 0, 1⟩⟩ ⟨1, none⟩ ⟨0, 0, 4, 3⟩ false
          .kLinear]
        (construct false) =
        some ⟨false, .kAttached, false, ⟨2, 0, 0, 0, 2, 0, 0, 0, 1⟩, some (.borrowed 1 7),
          none, 7⟩ ∧
      Destructor
          ⟨false, .kAttached, false, ⟨2, 0, 0, 0, 2, 0, 0, 0, 1⟩, some (.borrowed 1 7), none,
            7⟩ =
        [.glDeleteTextures 7, .texture_gles_reset, .external_image_reset] ∧
      Event.isRelease (.glDeleteTextures 7) = true := by
  refine ⟨?_, rfl, rfl⟩
  simp only [runCalls, Call.run]
  rw [Paint_construct_half]

/-- C10, amended: in every state reached from a constructed adapter by a sequence of `Paint`,
`MarkNewFrameAvailable`, `OnGrContextCreated`, `OnGrContextDestroyed` and
`OnTextureUnregistered` calls, `external_image_` is set only if `state_` is `kAttached`; in
whichever of these five calls is made next, every event that releases the texture
(`glDeleteTextures`, `texture_gles_.reset()`, or overwriting `texture_gles_`) comes after an
`external_image_.reset()` of the same call; the destructor instead clears nothing first: no
release in it comes after a reset of the image, it calls `glDeleteTextures` exactly when the
adapter is attached under the raw-handle strategy, and the image is dropped at its end. -/
theorem cached_image_only_while_attached (impeller_context : Bool) (calls : List Call)
    (a : AndroidExternalTextureGL)
    (h : runCalls calls (construct impeller_context) = some a) :
    (a.external_image_.isSome = true → a.state_ = .kAttached) ∧
      (∀ (c : Call) (pre post : List Event) (e : Event),
        (c.run a).trace = pre ++ e :: post → e.isRelease = true →
          ∃ r ∈ pre, r.isImageReset = true) ∧
      (∀ (pre post : List Event) (e : Event),
        Destructor a = pre ++ e :: post → e.isRelease = true →
          ∀ r ∈ pre, r.isImageReset = false) ∧
      (.glDeleteTextures a.texture_name_ ∈ Destructor a ↔
        a.impeller_context_ = false ∧ a.state_ = .kAttached) ∧
      Destructor a ≠ [] ∧ (Destructor a).getLast? = some .external_image_reset := by
  have hinv := runCalls_invariant calls (construct impeller_context) a
    ⟨by simp [construct], by simp [construct]⟩ h
  refine ⟨hinv.1, ?_, ?_, ?_, ?_⟩
  · intro c pre post e ht he
    cases c with
    | Paint w context bounds freeze sampling =>
      have hno := Paint_no_release w context bounds freeze sampling a hinv.2 e
        (by simp only [Call.run] at ht; rw [ht]; simp)
      rw [he] at hno
      cases hno
    | MarkNewFrameAvailable =>
      simp [Call.run, MarkNewFrameAvailable, Outcome.ok] at ht
    | OnGrContextCreated =>
      simp only [Call.run, OnGrContextCreated_eq] at ht
      cases pre with
      | nil =>
        simp only [List.nil_append, List.cons.injEq] at ht
        rw [← ht.1] at he
        cases he
      | cons p pre1 =>
        simp only [List.cons_append, List.cons.injEq] at ht
        obtain ⟨x, hx, hxr⟩ :=
          release_after_head_reset .external_image_reset e _ pre1 post rfl rfl ht.2 he
        exact ⟨x, List.mem_cons_of_mem _ hx, hxr⟩
    | OnGrContextDestroyed =>
      obtain ⟨t, htr⟩ := OnGrContextDestroyed_eq a
      simp only [Call.run, htr] at ht
      exact release_after_head_reset .external_image_reset e t pre post rfl rfl ht he
    | OnTextureUnregistered =>
      simp [Call.run, OnTextureUnregistered, Outcome.ok] at ht
  · intro pre post e ht he r hr
    have hall : ∀ x ∈ Destructor a, x.isImageReset = true → x = .external_image_reset := by
      intro x _ hx
      cases x <;> simp_all [Event.isImageReset]
    by_contra hres
    have hres1 : r.isImageReset = true := by simpa using hres
    have hreq := hall r (by rw [ht]; simp [hr]) hres1
    subst hreq
    -- the image reset is the last event of the destructor, so nothing follows it
    have hlast : ∀ (l1 l2 : List Event) (x : Event),
        Destructor a = l1 ++ .external_image_reset :: x :: l2 → False := by
      intro l1 l2 x hd
      unfold Destructor at hd
      split at hd
      · rcases l1 with _ | ⟨p1, _ | ⟨p2, l1⟩⟩ <;> simp at hd
      · split at hd
        · rcases l1 with _ | ⟨p1, _ | ⟨p2, _ | ⟨p3, l1⟩⟩⟩ <;> simp at hd
        · rcases l1 with _ | ⟨p1, _ | ⟨p2, l1⟩⟩ <;> simp at hd
    obtain ⟨l1, l2, hl⟩ := List.append_of_mem hr
    rw [hl] at ht
    cases l2 with
    | nil => exact hlast l1 post e (by rw [ht]; simp)
    | cons y l2 => exact hlast l1 (l2 ++ e :: post) y (by rw [ht]; simp)
  · unfold Destructor
    by_cases hi : a.impeller_context_ = true
    · simp [hi]
    · have hi0 : a.impeller_context_ = false := by simpa using hi
      by_cases hst : a.state_ = .kAttached <;> simp [hi0, hst]
  · unfold Destructor
    constructor
    · simp
    · simp [List.getLast?_append]

/-- Witness for C10, amended: a raw-handle adapter after its first `Paint`, attached and
holding a cached image. -/
theorem cached_image_only_while_attached_witness :
    ((AndroidExternalTextureGL.external_image_
          ⟨false, .kAttached, false, ⟨2, 0, 0, 0, 2, 0, 0, 0, 1⟩, some (.borrowed 1 7), none,
            7⟩).isSome = true →
        AndroidExternalTextureGL.state_
          ⟨false, .kAttached, false, ⟨2, 0, 0, 0, 2, 0, 0, 0, 1⟩, some (.borrowed 1 7), none,
            7⟩ = .kAttached) ∧
      (∀ (c : Call) (pre post : List Event) (e : Event),
        (c.run ⟨false, .kAttached, false, ⟨2, 0, 0, 0, 2, 0, 0, 0, 1⟩, some (.borrowed 1 7),
            none, 7⟩).trace = pre ++ e :: post →
          e.isRelease = true → ∃ r ∈ pre, r.isImageReset = true) ∧
      (∀ (pre post : List Event) (e : Event),
        Destructor
            ⟨false, .kAttached, false, ⟨2, 0, 0, 0, 2, 0, 0, 0, 1⟩, some (.borrowed 1 7), none,
              7⟩ = pre ++ e :: post →
          e.isRelease = true → ∀ r ∈ pre, r.isImageReset = false) ∧
      (.glDeleteTextures
            (AndroidExternalTextureGL.texture_name_
              ⟨false, .kAttached, false, ⟨2, 0, 0, 0, 2, 0, 0, 0, 1⟩, some (.borrowed 1 7), none,
                7⟩) ∈
          Destructor
            ⟨false, .kAttached, false, ⟨2, 0, 0, 0, 2, 0, 0, 0, 1⟩, some (.borrowed 1 7), none,
              7⟩ ↔
        AndroidExternalTextureGL.impeller_context_
            ⟨false, .kAttached, false, ⟨2, 0, 0, 0, 2, 0, 0, 0, 1⟩, some (.borrowed 1 7), none,
              7⟩ = false ∧
          AndroidExternalTextureGL.state_
            ⟨false, .kAttached, false, ⟨2, 0, 0, 0, 2, 0, 0, 0, 1⟩, some (.borrowed 1 7), none,
              7⟩ = .kAttached) ∧
      Destructor
          ⟨false, .kAttached, false, ⟨2, 0, 0, 0, 2, 0, 0, 0, 1⟩, some (.borrowed 1 7), none,
            7⟩ ≠ [] ∧
        (Destructor
          ⟨false, .kAttached, false, ⟨2, 0, 0, 0, 2, 0, 0, 0, 1⟩, some (.borrowed 1 7), none,
            7⟩).getLast? = some .external_image_reset :=
  cached_image_only_while_attached false
    [.Paint ⟨7, none, ⟨1 / 2, 0, 0, 0, 1 / 2, 0, 0, 0, 1⟩⟩ ⟨1, none⟩ ⟨0, 0, 4, 3⟩ false .kLinear]
    _ (by
      simp only [runCalls, Call.run]
      rw [Paint_construct_half])

end flutter
